import Mathlib

set_option linter.unusedVariables false

/- Shallow embedding of the function-deployment orchestrator of
   cloudbase-manager-node (src/function/index.ts).  Remote calls and the
   filesystem packer are modelled as explicit outcome oracles; every
   operation returns the list of externally visible actions it performed
   (requests, sleeps, packaging steps) together with its outcome.
   JavaScript truthiness on strings and options is modelled explicitly
   wherever the source relies on it (a JS string is truthy iff nonempty;
   `undefined` is falsy). -/

/-- Modelled from the spec: `CloudBaseError` (src/error.ts is not among the
provided sources).  An error value carries the platform error code, a human
message and the request id of the originating call, matching the
`{code, message, requestId}` fields the orchestrator reads and writes
(spec section 7: surfaced errors preserve the platform error code and
request id). -/
structure CBError where
  code : Option String := none
  message : String := ""
  requestId : Option String := none
deriving Repr, DecidableEq

/-- Source `IFunctionVPC` (interfaces): a pair of subnet id and vpc id. -/
structure IFunctionVPC where
  subnetId : String
  vpcId : String
deriving Repr, DecidableEq

/-- Source `ICloudFunctionTrigger`: `{name, type, config}`. -/
structure ICloudFunctionTrigger where
  name : String
  type : String
  config : String
deriving Repr, DecidableEq

/-- Source `ILayerOptions`: a layer reference `{name, version}`. -/
structure ILayerOptions where
  name : String
  version : Nat
deriving Repr, DecidableEq

/-- Source `ICloudFunction` (interfaces plus the fields the orchestrator
reads: `l5`, `layers`, `isWaitInstall`).  Optional JS fields are `Option`;
`envVariables` is the ordered key/value entry list of the JS record
(`Object.keys` enumerates insertion order); `ignore` models the array form
of the `string | string[]` field. -/
structure ICloudFunction where
  name : String
  timeout : Option Nat := none
  envVariables : List (String × String) := []
  runtime : Option String := none
  vpc : Option IFunctionVPC := none
  installDependency : Option Bool := none
  triggers : Option (List ICloudFunctionTrigger) := none
  handler : Option String := none
  ignore : List String := []
  isWaitInstall : Option Bool := none
  l5 : Option Bool := none
  layers : Option (List ILayerOptions) := none
deriving Repr, DecidableEq

/-- JS truthiness of a string: truthy iff nonempty. -/
def jsTruthyStr (s : String) : Bool := s ≠ ""

/-- JS truthiness of an optional string: `undefined` and the empty string
are falsy. -/
def optStrTruthy : Option String → Bool
  | some s => jsTruthyStr s
  | none => false

/-- JS `o || d` on an optional string with a default. -/
def jsOrStr (o : Option String) (d : String) : String :=
  match o with
  | some s => if s = "" then d else s
  | none => d

/-- Shift an outcome stream by a fixed offset (used when a later call site
continues consuming a stream a previous call site already drew from). -/
def shiftSeq {α : Type} (f : Nat → α) (k : Nat) : Nat → α := fun i => f (k + i)

/-- Source regex `^[A-Za-z0-9+=/]{1,160}$` character class. -/
def isValidSecretChar (c : Char) : Bool :=
  c.isAlpha || c.isDigit || c = '+' || c = '=' || c = '/'

/-- Source regex `^[A-Za-z0-9+=/]{1,160}$` on a whole string. -/
def validCodeSecret (s : String) : Bool :=
  1 ≤ s.data.length && s.data.length ≤ 160 && s.data.all isValidSecretChar

/-- Source `validRuntime` list (lines 118, 769, 834, 854). -/
def validRuntimes : List String := ["Nodejs8.9", "Php7", "Java8"]

/-- Condition of the source guard `codeSecret && !regex.test(codeSecret)`
(line 111): a truthy secret that fails the format check. -/
def badCodeSecret (codeSecret : Option String) : Bool :=
  match codeSecret with
  | some cs => jsTruthyStr cs && !validCodeSecret cs
  | none => false

/-- Condition of the source guard `func?.runtime && !validRuntime.includes(func.runtime)`
(line 119): a truthy runtime outside the closed set. -/
def badRuntime (func : ICloudFunction) : Bool :=
  match func.runtime with
  | some r => jsTruthyStr r && !(validRuntimes.contains r)
  | none => false

/-- Error thrown for a malformed CodeSecret (line 112). -/
def codeSecretFormatError : CBError :=
  { code := none
    message := "CodeSecret 格式错误，CodeSecret 只能包含 1-160 位大小字母、数字、\"+\"、\"=\"、\"/\""
    requestId := none }

/-- Error thrown for an unsupported runtime (line 120). -/
def invalidRuntimeError (func : ICloudFunction) : CBError :=
  { code := none
    message := func.name ++ " Invalid runtime value：" ++ func.runtime.getD "" ++
      ". Now only support: Nodejs8.9, Php7, Java8"
    requestId := none }

/-- Source `validCreateParams` (lines 109-126): checks the CodeSecret format
first, then the runtime; returns the error it would throw, if any. -/
def validCreateParams (func : ICloudFunction) (codeSecret : Option String) : Option CBError :=
  if badCodeSecret codeSecret then some codeSecretFormatError
  else if badRuntime func then some (invalidRuntimeError func)
  else none

/-- Source lines 205-211 and 556-562: `installDependency` starts as `'TRUE'`
exactly for runtime `Nodejs8.9`, and an explicit boolean option overrides
the default.  The value is the string sent to the platform. -/
def resolveInstallDependency (func : ICloudFunction) : String :=
  match func.installDependency with
  | some b => if b then "TRUE" else "FALSE"
  | none => if func.runtime = some "Nodejs8.9" then "TRUE" else "FALSE"

/-- Source lines 216-219 and 566-569: the ignore list handed to the packer;
`node_modules/**/*` and `node_modules` are prepended exactly when the
resolved install-dependency flag is the string `'TRUE'`. -/
def packIgnore (installDependency : String) (func : ICloudFunction) : List String :=
  if installDependency = "TRUE" then
    "node_modules/**/*" :: "node_modules" :: func.ignore
  else
    func.ignore

/-- Source lines 232-235 and 499-502: the `{Key, Value}` entry list derived
from the env-variable record; it is always the complete entry set of the
spec, never a diff against remote state (the builder has no remote input). -/
def envVariablesOf (func : ICloudFunction) : List (String × String) :=
  func.envVariables.map (fun kv => (kv.1, kv.2))

/-- Source lines 238 and 505: `L5Enable` is null (`none`) when the option is
absent, otherwise `'TRUE'`/`'FALSE'`. -/
def l5EnableOf (func : ICloudFunction) : Option String :=
  match func.l5 with
  | some b => some (if b then "TRUE" else "FALSE")
  | none => none

/-- Parameter set of the `CreateFunction` request (source lines 240-283). -/
structure CreateFunctionParams where
  FunctionName : String
  Namespace : String
  ZipFile : String
  MemorySize : Nat
  Role : String
  Stamp : String
  L5Enable : Option String
  Environment : Option (List (String × String))
  Handler : String
  Timeout : Nat
  Runtime : String
  VpcSubnetId : String
  VpcVpcId : String
  InstallDependency : String
  CodeSecret : Option String
  EipFixed : String
  Layers : Option (List ILayerOptions)
deriving Repr, DecidableEq

/-- Source lines 240-283: build the `CreateFunction` parameters.  The
`Environment` field is attached only when the entry list is nonempty
(line 255), `Timeout` falls back to 20 when absent or zero (line 259),
`Runtime` and `Handler` fall back to defaults when falsy, and `EipConfig`
is enabled exactly when both VPC ids are nonempty. -/
def buildCreateFunctionParams (func : ICloudFunction) (ns : String) (base64 : String)
    (installDependency : String) (codeSecret : Option String) : CreateFunctionParams :=
  let envVariables := envVariablesOf func
  let subnetId := match func.vpc with | some v => v.subnetId | none => ""
  let vpcId := match func.vpc with | some v => v.vpcId | none => ""
  { FunctionName := func.name
    Namespace := ns
    ZipFile := base64
    MemorySize := 256
    Role := "TCB_QcsRole"
    Stamp := "MINI_QCBASE"
    L5Enable := l5EnableOf func
    Environment := if envVariables = [] then none else some envVariables
    Handler := jsOrStr func.handler "index.main"
    Timeout := (match func.timeout with | some t => if t = 0 then 20 else t | none => 20)
    Runtime := jsOrStr func.runtime "Nodejs8.9"
    VpcSubnetId := subnetId
    VpcVpcId := vpcId
    InstallDependency := installDependency
    CodeSecret := if optStrTruthy codeSecret then codeSecret else none
    EipFixed := if subnetId ≠ "" ∧ vpcId ≠ "" then "TRUE" else "FALSE"
    Layers := match func.layers with | some ls => if ls = [] then none else some ls | none => none }

/-- Parameter set of the `UpdateFunctionConfiguration` request
(source lines 507-534). -/
structure UpdateConfigParams where
  FunctionName : String
  Namespace : String
  L5Enable : Option String
  Environment : Option (List (String × String))
  Timeout : Option Nat
  Runtime : Option String
  VpcSubnetId : String
  VpcVpcId : String
  InstallDependency : Option String
  Layers : Option (List ILayerOptions)
deriving Repr, DecidableEq

/-- Source lines 496-536: build the `UpdateFunctionConfiguration`
parameters.  `Environment` is attached only for a nonempty entry list
(line 515); `Timeout` and `Runtime` only when truthy (lines 517-519);
`InstallDependency` defaults to `'TRUE'` for Nodejs8.9 and is overridden by
an explicit option (lines 527-531). -/
def updateFunctionConfigParams (func : ICloudFunction) (ns : String) : UpdateConfigParams :=
  let envVariables := envVariablesOf func
  { FunctionName := func.name
    Namespace := ns
    L5Enable := l5EnableOf func
    Environment := if envVariables = [] then none else some envVariables
    Timeout := (match func.timeout with | some t => if t = 0 then none else some t | none => none)
    Runtime := (match func.runtime with | some r => if r = "" then none else some r | none => none)
    VpcSubnetId := (match func.vpc with | some v => v.subnetId | none => "")
    VpcVpcId := (match func.vpc with | some v => v.vpcId | none => "")
    InstallDependency :=
      (match func.installDependency with
       | some b => some (if b then "TRUE" else "FALSE")
       | none => if func.runtime = some "Nodejs8.9" then some "TRUE" else none)
    Layers := match func.layers with | some ls => if ls = [] then none else some ls | none => none }

/-- Parameter set of the `UpdateFunctionCode` request (source lines 581-591). -/
structure UpdateCodeParams where
  FunctionName : String
  Namespace : String
  ZipFile : String
  Handler : String
  InstallDependency : String
  CodeSecret : Option String
deriving Repr, DecidableEq

/-- Parameter set of the `UpdateFunctionIncrementalCode` request
(source lines 157-181). -/
structure UpdateIncrementalParams where
  FunctionName : String
  Namespace : String
  DeleteFiles : Option (List String)
  AddFiles : Option String
deriving Repr, DecidableEq

/-- Externally visible steps a run performs: packaging, each network
request, and each fixed-delay sleep. -/
inductive Act where
  | pack (ignore : List String)
  | packIncremental (addFiles : String)
  | createFunctionReq (p : CreateFunctionParams)
  | batchCreateTriggerReq (fn : String) (ts : List ICloudFunctionTrigger)
  | updateConfigReq (p : UpdateConfigParams)
  | updateCodeReq (p : UpdateCodeParams)
  | updateIncrementalReq (p : UpdateIncrementalParams)
  | getFunctionReq (fn : String)
  | describeVpcsReq
  | describeSubnetsReq (vpcId : String)
  | sleep (ms : Nat)
deriving Repr, DecidableEq

/-- Result of an effectful run: the action trace and the outcome; `none`
means the run did not finish within the polling fuel (the source loop is
unbounded). -/
abbrev Res (α : Type) := List Act × Option (Except CBError α)

/-- Decidable equality for `Except`, needed to settle concrete runs by
`decide`. -/
instance {e a : Type} [DecidableEq e] [DecidableEq a] : DecidableEq (Except e a) := fun x y =>
  match x, y with
  | Except.error u, Except.error v =>
    if h : u = v then isTrue (by rw [h]) else isFalse (fun hc => by cases hc; exact h rfl)
  | Except.ok u, Except.ok v =>
    if h : u = v then isTrue (by rw [h]) else isFalse (fun hc => by cases hc; exact h rfl)
  | Except.error _, Except.ok _ => isFalse (fun hc => by cases hc)
  | Except.ok _, Except.error _ => isFalse (fun hc => by cases hc)

/-- Predicate picking out `CreateFunction` requests in a trace. -/
def isCreateReq : Act → Bool
  | Act.createFunctionReq _ => true
  | _ => false

/-- Predicate picking out `GetFunction` requests in a trace. -/
def isGetFunctionReq : Act → Bool
  | Act.getFunctionReq _ => true
  | _ => false

/-- Predicate picking out `BatchCreateTrigger` requests in a trace. -/
def isBatchReq : Act → Bool
  | Act.batchCreateTriggerReq _ _ => true
  | _ => false

/-- Number of `GetFunction` requests in a trace (used to keep the status
stream consumption consistent across sequential call sites). -/
def countGetF (t : List Act) : Nat := t.countP isGetFunctionReq

/-- Number of `BatchCreateTrigger` requests in a trace. -/
def countBatchReq (t : List Act) : Nat := t.countP isBatchReq

/-- Error thrown when the packer produces nothing (lines 177, 225, 575). -/
def functionMissingError : CBError :=
  { code := none, message := "函数不存在！", requestId := none }

/-- Modelled from the spec: the `FunctionPacker` (src/function/packer.ts is
not among the provided sources) walks the function root, applies the ignore
globs and returns the base64 artifact, or a falsy value when no source is
found (spec section 4.1).  The oracle maps an ignore list to that outcome;
`none` or an empty string mean no source found.
Source lines 214-229 and 565-579: when the caller already supplied a truthy
`base64Code` it is used as is and the packer is not invoked; otherwise the
packer runs with the computed ignore list and a falsy artifact raises the
function-missing error. -/
def resolvePackage (base64Code : Option String) (installDependency : String)
    (func : ICloudFunction) (packRes : List String → Option String) :
    List Act × Except CBError String :=
  if optStrTruthy base64Code then ([], Except.ok (base64Code.getD ""))
  else
    let ignore := packIgnore installDependency func
    match packRes ignore with
    | some s =>
        if s = "" then ([Act.pack ignore], Except.error functionMissingError)
        else ([Act.pack ignore], Except.ok s)
    | none => ([Act.pack ignore], Except.error functionMissingError)

/-- Modelled from the spec: the status constants (src/constant.ts is not
among the provided sources).  The Await-Active loop continues while the
reported status is exactly CREATING or UPDATING (spec section 4.3); the
concrete spellings are irrelevant to every claim, which compare statuses
symbolically. -/
def SCF_STATUS_CREATING : String := "CREATING"

/-- Modelled from the spec: see `SCF_STATUS_CREATING`. -/
def SCF_STATUS_UPDATING : String := "UPDATING"

/-- Fields of the `GetFunction` response the orchestrator reads: the
function status and the raw VPC configuration `(VpcId, SubnetId)` with
absent fields defaulting to the empty string (lines 397-423). -/
structure GetFunctionResp where
  Status : String
  VpcConfig : Option (String × String) := none
deriving Repr, DecidableEq

/-- An entry of the `DescribeVpcs` response set (line 923). -/
structure VpcRec where
  VpcId : String
  info : String := ""
deriving Repr, DecidableEq

/-- An entry of the `DescribeSubnets` response set (line 933). -/
structure SubnetRec where
  SubnetId : String
  info : String := ""
deriving Repr, DecidableEq

/-- Value of the `VpcConfig` key of the detail record: either the raw value
copied from the `GetFunction` response or the resolved `{vpc, subnet}` pair
(lines 423-434). -/
inductive VpcConfigField where
  | raw (v : Option (String × String))
  | resolved (vpc : Option VpcRec) (subnet : Option SubnetRec)
deriving Repr, DecidableEq

/-- The detail record `getFunctionDetail` returns: the copied status, the
`VpcConfig` key, and the `VPC` key that is written only on the degraded
path of the failed lookup (lines 435-440). -/
structure FunctionDetail where
  Status : String
  VpcConfig : VpcConfigField
  VPC : Option (String × String)
deriving Repr, DecidableEq

/-- Source `getFunctionDetail` (lines 384-444): issue `GetFunction`; when
both VPC ids are nonempty, resolve them via `DescribeVpcs` and
`DescribeSubnets`; a failure of either lookup is caught and replaced by the
empty `{vpc: '', subnet: ''}` record under the `VPC` key, leaving the raw
`VpcConfig` in place; the failure is never re-thrown. -/
def getFunctionDetail (fn ns : String)
    (getRes : Except CBError GetFunctionResp)
    (vpcsRes : Except CBError (List VpcRec))
    (subnetsRes : Except CBError (List SubnetRec)) :
    List Act × Except CBError FunctionDetail :=
  match getRes with
  | Except.error e => ([Act.getFunctionReq fn], Except.error e)
  | Except.ok res =>
    let vpcId := (res.VpcConfig.map Prod.fst).getD ""
    let subnetId := (res.VpcConfig.map Prod.snd).getD ""
    if vpcId ≠ "" ∧ subnetId ≠ "" then
      match vpcsRes with
      | Except.error _ =>
        ([Act.getFunctionReq fn, Act.describeVpcsReq],
         Except.ok { Status := res.Status, VpcConfig := VpcConfigField.raw res.VpcConfig,
                     VPC := some ("", "") })
      | Except.ok vs =>
        match subnetsRes with
        | Except.error _ =>
          ([Act.getFunctionReq fn, Act.describeVpcsReq, Act.describeSubnetsReq vpcId],
           Except.ok { Status := res.Status, VpcConfig := VpcConfigField.raw res.VpcConfig,
                       VPC := some ("", "") })
        | Except.ok ss =>
          ([Act.getFunctionReq fn, Act.describeVpcsReq, Act.describeSubnetsReq vpcId],
           Except.ok { Status := res.Status,
                       VpcConfig := VpcConfigField.resolved
                         (vs.find? (fun v => v.VpcId == vpcId))
                         (ss.find? (fun s => s.SubnetId == subnetId)),
                       VPC := none })
    else
      ([Act.getFunctionReq fn],
       Except.ok { Status := res.Status, VpcConfig := VpcConfigField.raw res.VpcConfig,
                   VPC := none })

/-- Source `waitFunctionActive` (lines 944-952): a do-while loop that calls
`getFunctionDetail`, sleeps 1000ms, and repeats while the status is exactly
CREATING or UPDATING.  The i-th iteration consumes index i of each outcome
stream; the loop itself is unbounded, so the embedding carries fuel and
returns `none` when the fuel runs out. -/
def waitFunctionActive (fn ns : String)
    (getSeq : Nat → Except CBError GetFunctionResp)
    (vpcsSeq : Nat → Except CBError (List VpcRec))
    (subnetsSeq : Nat → Except CBError (List SubnetRec)) : Nat → Nat → Res Unit
  | 0, _ => ([], none)
  | Nat.succ fuel, i =>
    let d := getFunctionDetail fn ns (getSeq i) (vpcsSeq i) (subnetsSeq i)
    match d.2 with
    | Except.error e => (d.1, some (Except.error e))
    | Except.ok detail =>
      if detail.Status = SCF_STATUS_CREATING ∨ detail.Status = SCF_STATUS_UPDATING then
        let w := waitFunctionActive fn ns getSeq vpcsSeq subnetsSeq fuel (i + 1)
        (d.1 ++ [Act.sleep 1000] ++ w.1, w.2)
      else
        (d.1 ++ [Act.sleep 1000], some (Except.ok ()))

/-- Source lines 683-694: each trigger must have type `timer`; the first
offender raises; otherwise the parsed list is returned. -/
def parseTriggers : List ICloudFunctionTrigger → Except CBError (List ICloudFunctionTrigger)
  | [] => Except.ok []
  | t :: ts =>
    if t.type ≠ "timer" then
      Except.error { code := none
                     message := "不支持的触发器类型 [" ++ t.type ++ "]，目前仅支持定时触发器（timer）！"
                     requestId := none }
    else
      match parseTriggers ts with
      | Except.error e => Except.error e
      | Except.ok rest => Except.ok (t :: rest)

/-- Source `createFunctionTriggers` (lines 676-702): an empty or absent
trigger list returns null immediately with no request; otherwise the
triggers are parsed and one `BatchCreateTrigger` request is issued whose
outcome is the given oracle value. -/
def createFunctionTriggers (fn ns : String) (triggers : Option (List ICloudFunctionTrigger))
    (reqRes : Except CBError String) : List Act × Except CBError (Option String) :=
  let ts := triggers.getD []
  if ts = [] then ([], Except.ok none)
  else
    match parseTriggers ts with
    | Except.error e => ([], Except.error e)
    | Except.ok parsed =>
      match reqRes with
      | Except.error e => ([Act.batchCreateTriggerReq fn parsed], Except.error e)
      | Except.ok r => ([Act.batchCreateTriggerReq fn parsed], Except.ok (some r))

/-- Recursion core of `retryCreateTrigger` (source lines 876-887): attempt,
and on failure sleep 500ms and retry while retries remain; the final
failure propagates.  `remaining` is the number of retries still allowed
(the source condition `count < 3` leaves `3 - count` of them). -/
def retryCreateTriggerGo (fn ns : String) (triggers : Option (List ICloudFunctionTrigger))
    (reqSeq : Nat → Except CBError String) :
    Nat → Nat → List Act × Except CBError (Option String)
  | count, 0 => createFunctionTriggers fn ns triggers (reqSeq count)
  | count, Nat.succ rem =>
    let a := createFunctionTriggers fn ns triggers (reqSeq count)
    match a.2 with
    | Except.error _ =>
      let b := retryCreateTriggerGo fn ns triggers reqSeq (count + 1) rem
      (a.1 ++ [Act.sleep 500] ++ b.1, b.2)
    | Except.ok v => (a.1, Except.ok v)

/-- Source `retryCreateTrigger` (lines 876-887), entered at a given attempt
count (0 at every call site). -/
def retryCreateTrigger (fn ns : String) (triggers : Option (List ICloudFunctionTrigger))
    (reqSeq : Nat → Except CBError String) (count : Nat) :
    List Act × Except CBError (Option String) :=
  retryCreateTriggerGo fn ns triggers reqSeq count (3 - count)

/-- Source `updateFunctionConfig` (lines 496-537): build the configuration
parameters and issue one `UpdateFunctionConfiguration` request. -/
def updateFunctionConfig (func : ICloudFunction) (ns : String)
    (reqRes : Except CBError String) : List Act × Except CBError String :=
  ([Act.updateConfigReq (updateFunctionConfigParams func ns)], reqRes)

/-- Source `IUpdateFunctionCodeParam` (lines 27-32). -/
structure IUpdateFunctionCodeParam where
  func : ICloudFunction
  functionRootPath : Option String := none
  base64Code : Option String := none
  codeSecret : Option String := none
deriving Repr, DecidableEq

/-- Source lines 581-591: build the `UpdateFunctionCode` parameters. -/
def buildUpdateCodeParams (func : ICloudFunction) (ns : String) (base64 : String)
    (installDependency : String) (codeSecret : Option String) : UpdateCodeParams :=
  { FunctionName := func.name
    Namespace := ns
    ZipFile := base64
    Handler := jsOrStr func.handler "index.main"
    InstallDependency := installDependency
    CodeSecret := if optStrTruthy codeSecret then codeSecret else none }

/-- Try-block of `updateFunctionCode` (source lines 593-599): issue
`UpdateFunctionCode` and - because the `InstallDependency` value is a
nonempty string, hence truthy - enter the Await-Active wait whenever
`isWaitInstall === true`. -/
def updateFunctionCodeTry (func : ICloudFunction) (params : UpdateCodeParams) (ns : String)
    (installDependency : String)
    (reqRes : Except CBError String)
    (getSeq : Nat → Except CBError GetFunctionResp)
    (vpcsSeq : Nat → Except CBError (List VpcRec))
    (subnetsSeq : Nat → Except CBError (List SubnetRec))
    (fuel : Nat) : Res String :=
  match reqRes with
  | Except.error e => ([Act.updateCodeReq params], some (Except.error e))
  | Except.ok res =>
    if installDependency ≠ "" ∧ func.isWaitInstall = some true then
      let w := waitFunctionActive func.name ns getSeq vpcsSeq subnetsSeq fuel 0
      match w.2 with
      | none => (Act.updateCodeReq params :: w.1, none)
      | some (Except.error e) => (Act.updateCodeReq params :: w.1, some (Except.error e))
      | some (Except.ok _) => (Act.updateCodeReq params :: w.1, some (Except.ok res))
    else ([Act.updateCodeReq params], some (Except.ok res))

/-- Source `updateFunctionCode` (lines 546-605): validate (without the
code secret), resolve the install-dependency flag, package unless a truthy
artifact was supplied, then run the try-block; request and wait failures
are wrapped into the annotated update-failure error (without a request
id), while validation and packaging failures are thrown as is. -/
def updateFunctionCode (p : IUpdateFunctionCodeParam) (ns : String)
    (packRes : List String → Option String)
    (reqRes : Except CBError String)
    (getSeq : Nat → Except CBError GetFunctionResp)
    (vpcsSeq : Nat → Except CBError (List VpcRec))
    (subnetsSeq : Nat → Except CBError (List SubnetRec))
    (fuel : Nat) : Res String :=
  match validCreateParams p.func none with
  | some e => ([], some (Except.error e))
  | none =>
    let installDependency := resolveInstallDependency p.func
    let pk := resolvePackage p.base64Code installDependency p.func packRes
    match pk.2 with
    | Except.error e => (pk.1, some (Except.error e))
    | Except.ok base64 =>
      let params := buildUpdateCodeParams p.func ns base64 installDependency p.codeSecret
      let tryRes := updateFunctionCodeTry p.func params ns installDependency reqRes
        getSeq vpcsSeq subnetsSeq fuel
      match tryRes.2 with
      | some (Except.error e) =>
        (pk.1 ++ tryRes.1,
         some (Except.error { code := e.code
                              message := "[" ++ p.func.name ++ "] 函数代码更新失败： " ++ e.message
                              requestId := none }))
      | other => (pk.1 ++ tryRes.1, other)

/-- Recursion core of `retryUpdateFunctionCode` (source lines 889-900):
attempt the code update, and on failure sleep 500ms and retry while
retries remain; the final failure propagates.  The status streams of later
attempts are shifted past the `GetFunction` calls earlier attempts
consumed. -/
def retryUpdateFunctionCodeGo (p : IUpdateFunctionCodeParam) (ns : String)
    (packRes : List String → Option String)
    (reqSeq : Nat → Except CBError String) (fuel : Nat) :
    (Nat → Except CBError GetFunctionResp) → (Nat → Except CBError (List VpcRec)) →
    (Nat → Except CBError (List SubnetRec)) → Nat → Nat → Res String
  | getSeq, vpcsSeq, subnetsSeq, count, 0 =>
    updateFunctionCode p ns packRes (reqSeq count) getSeq vpcsSeq subnetsSeq fuel
  | getSeq, vpcsSeq, subnetsSeq, count, Nat.succ rem =>
    let a := updateFunctionCode p ns packRes (reqSeq count) getSeq vpcsSeq subnetsSeq fuel
    match a.2 with
    | some (Except.error _) =>
      let sh := countGetF a.1
      let b := retryUpdateFunctionCodeGo p ns packRes reqSeq fuel
        (shiftSeq getSeq sh) (shiftSeq vpcsSeq sh) (shiftSeq subnetsSeq sh) (count + 1) rem
      (a.1 ++ [Act.sleep 500] ++ b.1, b.2)
    | _ => a

/-- Source `retryUpdateFunctionCode` (lines 889-900), entered at a given
attempt count (0 at its only call site). -/
def retryUpdateFunctionCode (p : IUpdateFunctionCodeParam) (ns : String)
    (packRes : List String → Option String)
    (reqSeq : Nat → Except CBError String)
    (getSeq : Nat → Except CBError GetFunctionResp)
    (vpcsSeq : Nat → Except CBError (List VpcRec))
    (subnetsSeq : Nat → Except CBError (List SubnetRec))
    (fuel : Nat) (count : Nat) : Res String :=
  retryUpdateFunctionCodeGo p ns packRes reqSeq fuel getSeq vpcsSeq subnetsSeq count (3 - count)

/-- Source `IUpdateFunctionIncrementalCodeParam` (lines 34-39). -/
structure IUpdateFunctionIncrementalCodeParam where
  func : ICloudFunction
  functionRootPath : String
  deleteFiles : Option (List String) := none
  addFiles : Option String := none
deriving Repr, DecidableEq

/-- Source `updateFunctionIncrementalCode` (lines 151-185): validate the
function (without any code secret), attach `DeleteFiles` when the option is
present, package the truthy `addFiles` selection (a falsy artifact raises
the function-missing error), and issue one `UpdateFunctionIncrementalCode`
request. -/
def updateFunctionIncrementalCode (p : IUpdateFunctionIncrementalCodeParam) (ns : String)
    (packIncRes : String → Option String)
    (reqRes : Except CBError String) : List Act × Except CBError String :=
  match validCreateParams p.func none with
  | some e => ([], Except.error e)
  | none =>
    let deleteFiles := p.deleteFiles
    match p.addFiles with
    | some af =>
      if af = "" then
        ([Act.updateIncrementalReq
            { FunctionName := p.func.name, Namespace := ns
              DeleteFiles := deleteFiles, AddFiles := none }], reqRes)
      else
        match packIncRes af with
        | some b64 =>
          if b64 = "" then ([Act.packIncremental af], Except.error functionMissingError)
          else
            ([Act.packIncremental af,
              Act.updateIncrementalReq
                { FunctionName := p.func.name, Namespace := ns
                  DeleteFiles := deleteFiles, AddFiles := some b64 }], reqRes)
        | none => ([Act.packIncremental af], Except.error functionMissingError)
    | none =>
      ([Act.updateIncrementalReq
          { FunctionName := p.func.name, Namespace := ns
            DeleteFiles := deleteFiles, AddFiles := none }], reqRes)

/-- Source `ICreateFunctionParam` (lines 19-25); `force` defaults to false
at the destructuring site (line 198). -/
structure ICreateFunctionParam where
  func : ICloudFunction
  functionRootPath : String := ""
  force : Bool := false
  base64Code : Option String := none
  codeSecret : Option String := none
deriving Repr, DecidableEq

/-- Source return type `IResponseInfo | ICreateFunctionRes` (line 195): a
clean create returns the create response; the reconcile path returns the
composite of the trigger, configuration and code results. -/
inductive CreateFunctionResult where
  | createRes (r : String)
  | composite (triggerRes : Option String) (configRes : String) (codeRes : String)
deriving Repr, DecidableEq

/-- Error built at source lines 321-324: the deployment failure annotated
with the function name, preserving the platform code and request id. -/
def annotateDeployError (fn : String) (e : CBError) : CBError :=
  { code := e.code
    message := "[" ++ fn ++ "] 部署失败：\n" ++ e.message
    requestId := e.requestId }

/-- Try-block of `createFunction` (source lines 285-296): issue
`CreateFunction`; on success create the triggers with bounded retry, and -
because `params.InstallDependency` is a nonempty string, hence truthy -
enter the Await-Active wait whenever `isWaitInstall === true`; finally
return the create response. -/
def createFunctionTry (p : ICreateFunctionParam) (ns : String) (params : CreateFunctionParams)
    (createRes : Except CBError String) (trigSeq : Nat → Except CBError String)
    (getSeq : Nat → Except CBError GetFunctionResp)
    (vpcsSeq : Nat → Except CBError (List VpcRec))
    (subnetsSeq : Nat → Except CBError (List SubnetRec))
    (fuel : Nat) : Res CreateFunctionResult :=
  match createRes with
  | Except.error e => ([Act.createFunctionReq params], some (Except.error e))
  | Except.ok res =>
    let tg := retryCreateTrigger p.func.name ns p.func.triggers trigSeq 0
    match tg.2 with
    | Except.error e => (Act.createFunctionReq params :: tg.1, some (Except.error e))
    | Except.ok _ =>
      if params.InstallDependency ≠ "" ∧ p.func.isWaitInstall = some true then
        let w := waitFunctionActive p.func.name ns getSeq vpcsSeq subnetsSeq fuel 0
        match w.2 with
        | none => (Act.createFunctionReq params :: (tg.1 ++ w.1), none)
        | some (Except.error e) =>
          (Act.createFunctionReq params :: (tg.1 ++ w.1), some (Except.error e))
        | some (Except.ok _) =>
          (Act.createFunctionReq params :: (tg.1 ++ w.1),
           some (Except.ok (CreateFunctionResult.createRes res)))
      else (Act.createFunctionReq params :: tg.1, some (Except.ok (CreateFunctionResult.createRes res)))

/-- Catch-block of `createFunction` (source lines 297-327): on a
`ResourceInUse.FunctionName` code with `force` set, run the reconcile
sequence - create triggers (no retry), update the configuration, update the
code with bounded retry reusing the already-packaged artifact - and return
the composite; otherwise, with `force` unset and a truthy message, throw
the deployment failure annotated with the function name; otherwise rethrow
the original error. -/
def createFunctionCatch (p : ICreateFunctionParam) (ns : String) (base64 : String) (e : CBError)
    (packRes : List String → Option String)
    (trigSeq : Nat → Except CBError String)
    (configRes : Except CBError String)
    (updSeq : Nat → Except CBError String)
    (getSeq : Nat → Except CBError GetFunctionResp)
    (vpcsSeq : Nat → Except CBError (List VpcRec))
    (subnetsSeq : Nat → Except CBError (List SubnetRec))
    (fuel : Nat) : Res CreateFunctionResult :=
  if e.code = some "ResourceInUse.FunctionName" ∧ p.force then
    let t1 := createFunctionTriggers p.func.name ns p.func.triggers (trigSeq 0)
    match t1.2 with
    | Except.error e1 => (t1.1, some (Except.error e1))
    | Except.ok trigV =>
      let t2 := updateFunctionConfig p.func ns configRes
      match t2.2 with
      | Except.error e2 => (t1.1 ++ t2.1, some (Except.error e2))
      | Except.ok cfgV =>
        let t3 := retryUpdateFunctionCode
          { func := p.func, functionRootPath := some p.functionRootPath
            base64Code := some base64, codeSecret := p.codeSecret }
          ns packRes updSeq getSeq vpcsSeq subnetsSeq fuel 0
        match t3.2 with
        | none => (t1.1 ++ t2.1 ++ t3.1, none)
        | some (Except.error e3) => (t1.1 ++ t2.1 ++ t3.1, some (Except.error e3))
        | some (Except.ok codeV) =>
          (t1.1 ++ t2.1 ++ t3.1,
           some (Except.ok (CreateFunctionResult.composite trigV cfgV codeV)))
  else if e.message ≠ "" ∧ p.force = false then
    ([], some (Except.error (annotateDeployError p.func.name e)))
  else ([], some (Except.error e))

/-- Source `createFunction` (lines 193-329): validate (with the code
secret), resolve the install-dependency flag, package unless a truthy
artifact was supplied, build the creation parameters, run the try-block
and, when it throws, the catch-block; the catch-block receives the outcome
streams shifted past what the try-block consumed. -/
def createFunction (p : ICreateFunctionParam) (ns : String)
    (packRes : List String → Option String)
    (createRes : Except CBError String)
    (trigSeq : Nat → Except CBError String)
    (configRes : Except CBError String)
    (updSeq : Nat → Except CBError String)
    (getSeq : Nat → Except CBError GetFunctionResp)
    (vpcsSeq : Nat → Except CBError (List VpcRec))
    (subnetsSeq : Nat → Except CBError (List SubnetRec))
    (fuel : Nat) : Res CreateFunctionResult :=
  match validCreateParams p.func p.codeSecret with
  | some e => ([], some (Except.error e))
  | none =>
    let installDependency := resolveInstallDependency p.func
    let pk := resolvePackage p.base64Code installDependency p.func packRes
    match pk.2 with
    | Except.error e => (pk.1, some (Except.error e))
    | Except.ok base64 =>
      let params := buildCreateFunctionParams p.func ns base64 installDependency p.codeSecret
      let t := createFunctionTry p ns params createRes trigSeq getSeq vpcsSeq subnetsSeq fuel
      match t.2 with
      | some (Except.error e) =>
        let c := createFunctionCatch p ns base64 e packRes
          (shiftSeq trigSeq (countBatchReq t.1)) configRes updSeq
          (shiftSeq getSeq (countGetF t.1)) (shiftSeq vpcsSeq (countGetF t.1))
          (shiftSeq subnetsSeq (countGetF t.1)) fuel
        (pk.1 ++ t.1 ++ c.1, c.2)
      | other => (pk.1 ++ t.1, other)

theorem badCodeSecret_none : badCodeSecret none = false := rfl

theorem badRuntime_false_of_valid (func : ICloudFunction) (cs : Option String)
    (h : validCreateParams func cs = none) : badRuntime func = false := by
  unfold validCreateParams at h
  by_cases h1 : badCodeSecret cs
  · simp [h1] at h
  · by_cases h2 : badRuntime func
    · simp [h1, h2] at h
    · simpa using h2

theorem validCreateParams_none_drop (func : ICloudFunction) (cs : Option String)
    (h : validCreateParams func cs = none) : validCreateParams func none = none := by
  unfold validCreateParams
  simp [badCodeSecret_none, badRuntime_false_of_valid func cs h]

theorem parseTriggers_ok_of_timer :
    ∀ ts : List ICloudFunctionTrigger, (∀ t ∈ ts, t.type = "timer") →
      parseTriggers ts = Except.ok ts := by
  intro ts
  induction ts with
  | nil => intro _; rfl
  | cons t rest ih =>
    intro h
    unfold parseTriggers
    rw [h t (by simp)]
    simp only [ne_eq, not_true_eq_false, if_false]
    rw [ih (fun x hx => h x (by simp [hx]))]

theorem countCreate_getFunctionDetail (fn ns : String)
    (g : Except CBError GetFunctionResp)
    (v : Except CBError (List VpcRec)) (s : Except CBError (List SubnetRec)) :
    ((getFunctionDetail fn ns g v s).1).countP isCreateReq = 0 := by
  unfold getFunctionDetail
  rcases g with e | r
  · rfl
  · dsimp only
    split
    · rcases v with e1 | vs
      · rfl
      · rcases s with e2 | ss
        · rfl
        · rfl
    · rfl

theorem countCreate_waitFunctionActive (fn ns : String)
    (g : Nat → Except CBError GetFunctionResp)
    (v : Nat → Except CBError (List VpcRec)) (s : Nat → Except CBError (List SubnetRec)) :
    ∀ fuel i, ((waitFunctionActive fn ns g v s fuel i).1).countP isCreateReq = 0 := by
  intro fuel
  induction fuel with
  | zero => intro _; rfl
  | succ n ih =>
    intro i
    unfold waitFunctionActive
    dsimp only
    split
    · exact countCreate_getFunctionDetail fn ns (g i) (v i) (s i)
    · split
      · simp [List.countP_append, countCreate_getFunctionDetail, ih, List.countP_cons,
          List.countP_nil, isCreateReq]
      · simp [List.countP_append, countCreate_getFunctionDetail, List.countP_cons,
          List.countP_nil, isCreateReq]

theorem countCreate_createFunctionTriggers (fn ns : String)
    (tr : Option (List ICloudFunctionTrigger)) (r : Except CBError String) :
    ((createFunctionTriggers fn ns tr r).1).countP isCreateReq = 0 := by
  unfold createFunctionTriggers
  dsimp only
  split
  · rfl
  · split
    · rfl
    · split
      · rfl
      · rfl

theorem countCreate_retryCreateTriggerGo (fn ns : String)
    (tr : Option (List ICloudFunctionTrigger)) (seq : Nat → Except CBError String) :
    ∀ rem count, ((retryCreateTriggerGo fn ns tr seq count rem).1).countP isCreateReq = 0 := by
  intro rem
  induction rem with
  | zero => intro count; exact countCreate_createFunctionTriggers fn ns tr (seq count)
  | succ n ih =>
    intro count
    unfold retryCreateTriggerGo
    dsimp only
    split
    · simp [List.countP_append, countCreate_createFunctionTriggers, ih, List.countP_cons,
        List.countP_nil, isCreateReq]
    · exact countCreate_createFunctionTriggers fn ns tr (seq count)

theorem countCreate_resolvePackage (b : Option String) (inst : String)
    (func : ICloudFunction) (packRes : List String → Option String) :
    ((resolvePackage b inst func packRes).1).countP isCreateReq = 0 := by
  unfold resolvePackage
  split
  · rfl
  · dsimp only
    split
    · split
      · rfl
      · rfl
    · rfl

theorem countCreate_updateFunctionCodeTry (func : ICloudFunction) (params : UpdateCodeParams)
    (ns inst : String) (reqRes : Except CBError String)
    (g : Nat → Except CBError GetFunctionResp)
    (v : Nat → Except CBError (List VpcRec)) (s : Nat → Except CBError (List SubnetRec))
    (fuel : Nat) :
    ((updateFunctionCodeTry func params ns inst reqRes g v s fuel).1).countP isCreateReq = 0 := by
  unfold updateFunctionCodeTry
  rcases reqRes with e | r
  · rfl
  · dsimp only
    split
    · split <;>
        simp [List.countP_cons, countCreate_waitFunctionActive, isCreateReq]
    · rfl

theorem countCreate_updateFunctionCode (p : IUpdateFunctionCodeParam) (ns : String)
    (packRes : List String → Option String) (reqRes : Except CBError String)
    (g : Nat → Except CBError GetFunctionResp)
    (v : Nat → Except CBError (List VpcRec)) (s : Nat → Except CBError (List SubnetRec))
    (fuel : Nat) :
    ((updateFunctionCode p ns packRes reqRes g v s fuel).1).countP isCreateReq = 0 := by
  unfold updateFunctionCode
  split
  · rfl
  · dsimp only
    split
    · exact countCreate_resolvePackage _ _ _ _
    · split <;>
        simp [List.countP_append, countCreate_resolvePackage,
          countCreate_updateFunctionCodeTry]

theorem countCreate_retryUpdateFunctionCodeGo (p : IUpdateFunctionCodeParam) (ns : String)
    (packRes : List String → Option String) (seq : Nat → Except CBError String) (fuel : Nat) :
    ∀ rem g v s count,
      ((retryUpdateFunctionCodeGo p ns packRes seq fuel g v s count rem).1).countP isCreateReq = 0 := by
  intro rem
  induction rem with
  | zero => intro g v s count; exact countCreate_updateFunctionCode p ns packRes (seq count) g v s fuel
  | succ n ih =>
    intro g v s count
    unfold retryUpdateFunctionCodeGo
    dsimp only
    split
    · simp [List.countP_append, countCreate_updateFunctionCode, ih, List.countP_cons,
        List.countP_nil, isCreateReq]
    · exact countCreate_updateFunctionCode p ns packRes (seq count) g v s fuel

theorem countCreate_retryCreateTrigger (fn ns : String)
    (tr : Option (List ICloudFunctionTrigger)) (seq : Nat → Except CBError String)
    (count : Nat) :
    ((retryCreateTrigger fn ns tr seq count).1).countP isCreateReq = 0 :=
  countCreate_retryCreateTriggerGo fn ns tr seq (3 - count) count

theorem countCreate_retryUpdateFunctionCode (p : IUpdateFunctionCodeParam) (ns : String)
    (packRes : List String → Option String) (seq : Nat → Except CBError String)
    (g : Nat → Except CBError GetFunctionResp)
    (v : Nat → Except CBError (List VpcRec)) (s : Nat → Except CBError (List SubnetRec))
    (fuel count : Nat) :
    ((retryUpdateFunctionCode p ns packRes seq g v s fuel count).1).countP isCreateReq = 0 :=
  countCreate_retryUpdateFunctionCodeGo p ns packRes seq fuel (3 - count) g v s count

theorem countCreate_createFunctionCatch (p : ICreateFunctionParam) (ns base64 : String)
    (e : CBError) (packRes : List String → Option String)
    (trigSeq : Nat → Except CBError String) (configRes : Except CBError String)
    (updSeq : Nat → Except CBError String)
    (g : Nat → Except CBError GetFunctionResp)
    (v : Nat → Except CBError (List VpcRec)) (s : Nat → Except CBError (List SubnetRec))
    (fuel : Nat) :
    ((createFunctionCatch p ns base64 e packRes trigSeq configRes updSeq g v s fuel).1).countP
      isCreateReq = 0 := by
  unfold createFunctionCatch
  split
  · dsimp only
    split
    · exact countCreate_createFunctionTriggers _ _ _ _
    · split
      · simp [List.countP_append, countCreate_createFunctionTriggers, updateFunctionConfig,
          List.countP_cons, List.countP_nil, isCreateReq]
      · split <;>
          simp [List.countP_append, countCreate_createFunctionTriggers, updateFunctionConfig,
            countCreate_retryUpdateFunctionCode, List.countP_cons, List.countP_nil, isCreateReq]
  · split
    · rfl
    · rfl

theorem countCreate_createFunctionTry (p : ICreateFunctionParam) (ns : String)
    (params : CreateFunctionParams) (createRes : Except CBError String)
    (trigSeq : Nat → Except CBError String)
    (g : Nat → Except CBError GetFunctionResp)
    (v : Nat → Except CBError (List VpcRec)) (s : Nat → Except CBError (List SubnetRec))
    (fuel : Nat) :
    ((createFunctionTry p ns params createRes trigSeq g v s fuel).1).countP isCreateReq = 1 := by
  unfold createFunctionTry
  rcases createRes with e | r
  · rfl
  · dsimp only
    split
    · simp [List.countP_cons, countCreate_retryCreateTrigger, isCreateReq]
    · split
      · split <;>
          simp [List.countP_cons, List.countP_append, countCreate_retryCreateTrigger,
            countCreate_waitFunctionActive, isCreateReq]
      · simp [List.countP_cons, countCreate_retryCreateTrigger, isCreateReq]

theorem countCreate_createFunction (p : ICreateFunctionParam) (ns : String)
    (packRes : List String → Option String) (createRes : Except CBError String)
    (trigSeq : Nat → Except CBError String) (configRes : Except CBError String)
    (updSeq : Nat → Except CBError String)
    (g : Nat → Except CBError GetFunctionResp)
    (v : Nat → Except CBError (List VpcRec)) (s : Nat → Except CBError (List SubnetRec))
    (fuel : Nat) :
    ((createFunction p ns packRes createRes trigSeq configRes updSeq g v s fuel).1).countP
      isCreateReq ≤ 1 := by
  unfold createFunction
  split
  · simp
  · dsimp only
    split
    · simp [countCreate_resolvePackage]
    · split
      · simp [List.countP_append, countCreate_resolvePackage, countCreate_createFunctionTry,
          countCreate_createFunctionCatch]
      · simp [List.countP_append, countCreate_resolvePackage, countCreate_createFunctionTry]

/-- Claim C1: when the create attempt fails with the ResourceConflict code
`ResourceInUse.FunctionName` and `force` is set, `createFunction` performs
exactly the reconcile sequence in order - create triggers, update
configuration, update code - reusing the already-packaged base64 artifact
(the trace contains a single packaging step, and the code-update request
carries the same `ZipFile`), and returns the composite of the three
results. -/
theorem createFunction_conflict_force_reconcile_order
    (p : ICreateFunctionParam) (ns : String)
    (packRes : List String → Option String)
    (e : CBError) (s tv cv uv : String)
    (trigSeq : Nat → Except CBError String)
    (configRes : Except CBError String)
    (updSeq : Nat → Except CBError String)
    (getSeq : Nat → Except CBError GetFunctionResp)
    (vpcsSeq : Nat → Except CBError (List VpcRec))
    (subnetsSeq : Nat → Except CBError (List SubnetRec))
    (fuel : Nat)
    (ts : List ICloudFunctionTrigger)
    (hvalid : validCreateParams p.func p.codeSecret = none)
    (hforce : p.force = true)
    (hb64 : p.base64Code = none)
    (hpack : packRes (packIgnore (resolveInstallDependency p.func) p.func) = some s)
    (hs : s ≠ "")
    (hcode : e.code = some "ResourceInUse.FunctionName")
    (htrig : p.func.triggers = some ts)
    (hts : ts ≠ [])
    (htimer : ∀ t ∈ ts, t.type = "timer")
    (htres : trigSeq 0 = Except.ok tv)
    (hcfg : configRes = Except.ok cv)
    (hupd : updSeq 0 = Except.ok uv)
    (hwait : p.func.isWaitInstall ≠ some true) :
    createFunction p ns packRes (Except.error e) trigSeq configRes updSeq getSeq vpcsSeq
        subnetsSeq fuel =
      ([Act.pack (packIgnore (resolveInstallDependency p.func) p.func),
        Act.createFunctionReq (buildCreateFunctionParams p.func ns s
          (resolveInstallDependency p.func) p.codeSecret),
        Act.batchCreateTriggerReq p.func.name ts,
        Act.updateConfigReq (updateFunctionConfigParams p.func ns),
        Act.updateCodeReq (buildUpdateCodeParams p.func ns s
          (resolveInstallDependency p.func) p.codeSecret)],
       some (Except.ok (CreateFunctionResult.composite (some tv) cv uv))) := by
  have hvr : validCreateParams p.func none = none := validCreateParams_none_drop _ _ hvalid
  have hparse : parseTriggers ts = Except.ok ts := parseTriggers_ok_of_timer ts htimer
  unfold createFunction
  rw [hvalid]
  unfold resolvePackage
  rw [hb64]
  simp only [optStrTruthy, Bool.false_eq_true, if_false, hpack]
  rw [if_neg hs]
  dsimp only
  unfold createFunctionTry
  dsimp only [countBatchReq, countGetF, List.countP, List.countP.go, isBatchReq,
    isGetFunctionReq]
  unfold createFunctionCatch
  rw [hcode, hforce]
  simp only [and_true, eq_self_iff_true, if_true]
  unfold createFunctionTriggers
  rw [htrig]
  simp only [Option.getD_some]
  rw [if_neg hts, hparse]
  simp only [shiftSeq, Bool.cond_false, Bool.cond_true, Nat.add_zero, Nat.zero_add]
  rw [htres]
  dsimp only
  unfold updateFunctionConfig
  rw [hcfg]
  dsimp only
  unfold retryUpdateFunctionCode
  unfold retryUpdateFunctionCodeGo
  unfold updateFunctionCode
  rw [hvr]
  dsimp only
  unfold resolvePackage
  rw [if_pos (by simp [optStrTruthy, jsTruthyStr, hs])]
  simp only [Option.getD_some]
  unfold updateFunctionCodeTry
  rw [hupd]
  dsimp only
  rw [if_neg (fun hc => hwait hc.2)]
  dsimp only
  simp

/-- Concrete function spec used by the C1 witness run. -/
def reconcileDemoFunc : ICloudFunction :=
  { name := "g", runtime := some "Nodejs8.9"
    triggers := some [{ name := "t", type := "timer", config := "cfg" }] }

/-- Claim C1 (witness): the reconcile theorem applied to a concrete run. -/
theorem createFunction_conflict_force_reconcile_order_witness :
    createFunction { func := reconcileDemoFunc, force := true } "ns" (fun _ => some "PACKED")
      (Except.error { code := some "ResourceInUse.FunctionName", message := "exists",
                      requestId := some "rid" })
      (fun _ => Except.ok "tv") (Except.ok "cv") (fun _ => Except.ok "uv")
      (fun _ => Except.ok { Status := "Active" }) (fun _ => Except.ok [])
      (fun _ => Except.ok []) 1 =
      ([Act.pack (packIgnore (resolveInstallDependency reconcileDemoFunc) reconcileDemoFunc),
        Act.createFunctionReq (buildCreateFunctionParams reconcileDemoFunc "ns" "PACKED"
          (resolveInstallDependency reconcileDemoFunc) none),
        Act.batchCreateTriggerReq "g" [{ name := "t", type := "timer", config := "cfg" }],
        Act.updateConfigReq (updateFunctionConfigParams reconcileDemoFunc "ns"),
        Act.updateCodeReq (buildUpdateCodeParams reconcileDemoFunc "ns" "PACKED"
          (resolveInstallDependency reconcileDemoFunc) none)],
       some (Except.ok (CreateFunctionResult.composite (some "tv") "cv" "uv"))) :=
  createFunction_conflict_force_reconcile_order
    { func := reconcileDemoFunc, force := true } "ns" (fun _ => some "PACKED")
    { code := some "ResourceInUse.FunctionName", message := "exists", requestId := some "rid" }
    "PACKED" "tv" "cv" "uv"
    (fun _ => Except.ok "tv") (Except.ok "cv") (fun _ => Except.ok "uv")
    (fun _ => Except.ok { Status := "Active" }) (fun _ => Except.ok [])
    (fun _ => Except.ok []) 1
    [{ name := "t", type := "timer", config := "cfg" }]
    rfl rfl rfl rfl (by decide) rfl rfl (by decide) (by decide) rfl rfl rfl (by decide)

/-- Claim C2: the bounded-retry policy.  Trigger creation retried with a
fixed 500ms backoff: four consecutive failures exhaust the 3 retries and
the last (4th) error propagates; two failures followed by a success on the
3rd attempt return the success.  The same bound holds for the reconcile
code update, whose per-attempt failures are wrapped into the update-failure
error.  The initial `CreateFunction` call is never retried: every
`createFunction` run issues at most one `CreateFunction` request. -/
theorem retry_policy_bounded_backoff
    (fn nsT : String) (ts : List ICloudFunctionTrigger)
    (seqA seqB : Nat → Except CBError String) (es : Nat → CBError) (v : String)
    (pU : IUpdateFunctionCodeParam) (nsU : String)
    (packResU : List String → Option String)
    (seqUA seqUB : Nat → Except CBError String)
    (gU : Nat → Except CBError GetFunctionResp)
    (vU : Nat → Except CBError (List VpcRec)) (sU : Nat → Except CBError (List SubnetRec))
    (fuelU : Nat)
    (pC : ICreateFunctionParam) (nsC : String)
    (packResC : List String → Option String) (createResC : Except CBError String)
    (trigSeqC : Nat → Except CBError String) (configResC : Except CBError String)
    (updSeqC : Nat → Except CBError String)
    (gC : Nat → Except CBError GetFunctionResp)
    (vC : Nat → Except CBError (List VpcRec)) (sC : Nat → Except CBError (List SubnetRec))
    (fuelC : Nat)
    (hts : ts ≠ []) (htimer : ∀ t ∈ ts, t.type = "timer")
    (hA : ∀ i, seqA i = Except.error (es i))
    (hB0 : seqB 0 = Except.error (es 0)) (hB1 : seqB 1 = Except.error (es 1))
    (hB2 : seqB 2 = Except.ok v)
    (hvalidU : validCreateParams pU.func none = none)
    (hbU : optStrTruthy pU.base64Code = true)
    (hwaitU : pU.func.isWaitInstall ≠ some true)
    (hUA : ∀ i, seqUA i = Except.error (es i))
    (hUB0 : seqUB 0 = Except.error (es 0)) (hUB1 : seqUB 1 = Except.error (es 1))
    (hUB2 : seqUB 2 = Except.ok v) :
    retryCreateTrigger fn nsT (some ts) seqA 0 =
      ([Act.batchCreateTriggerReq fn ts, Act.sleep 500, Act.batchCreateTriggerReq fn ts,
        Act.sleep 500, Act.batchCreateTriggerReq fn ts, Act.sleep 500,
        Act.batchCreateTriggerReq fn ts], Except.error (es 3))
    ∧ retryCreateTrigger fn nsT (some ts) seqB 0 =
      ([Act.batchCreateTriggerReq fn ts, Act.sleep 500, Act.batchCreateTriggerReq fn ts,
        Act.sleep 500, Act.batchCreateTriggerReq fn ts], Except.ok (some v))
    ∧ retryUpdateFunctionCode pU nsU packResU seqUA gU vU sU fuelU 0 =
      ([Act.updateCodeReq (buildUpdateCodeParams pU.func nsU (pU.base64Code.getD "")
          (resolveInstallDependency pU.func) pU.codeSecret), Act.sleep 500,
        Act.updateCodeReq (buildUpdateCodeParams pU.func nsU (pU.base64Code.getD "")
          (resolveInstallDependency pU.func) pU.codeSecret), Act.sleep 500,
        Act.updateCodeReq (buildUpdateCodeParams pU.func nsU (pU.base64Code.getD "")
          (resolveInstallDependency pU.func) pU.codeSecret), Act.sleep 500,
        Act.updateCodeReq (buildUpdateCodeParams pU.func nsU (pU.base64Code.getD "")
          (resolveInstallDependency pU.func) pU.codeSecret)],
       some (Except.error { code := (es 3).code
                            message := "[" ++ pU.func.name ++ "] 函数代码更新失败： " ++ (es 3).message
                            requestId := none }))
    ∧ retryUpdateFunctionCode pU nsU packResU seqUB gU vU sU fuelU 0 =
      ([Act.updateCodeReq (buildUpdateCodeParams pU.func nsU (pU.base64Code.getD "")
          (resolveInstallDependency pU.func) pU.codeSecret), Act.sleep 500,
        Act.updateCodeReq (buildUpdateCodeParams pU.func nsU (pU.base64Code.getD "")
          (resolveInstallDependency pU.func) pU.codeSecret), Act.sleep 500,
        Act.updateCodeReq (buildUpdateCodeParams pU.func nsU (pU.base64Code.getD "")
          (resolveInstallDependency pU.func) pU.codeSecret)],
       some (Except.ok v))
    ∧ ((createFunction pC nsC packResC createResC trigSeqC configResC updSeqC gC vC sC
        fuelC).1).countP isCreateReq ≤ 1 := by
  have hparse : parseTriggers ts = Except.ok ts := parseTriggers_ok_of_timer ts htimer
  have hattE : ∀ i, createFunctionTriggers fn nsT (some ts) (seqA i) =
      ([Act.batchCreateTriggerReq fn ts], Except.error (es i)) := by
    intro i
    unfold createFunctionTriggers
    simp only [Option.getD_some]
    rw [if_neg hts, hparse, hA i]
  have hattB : ∀ i r, seqB i = Except.error r →
      createFunctionTriggers fn nsT (some ts) (seqB i) =
        ([Act.batchCreateTriggerReq fn ts], Except.error r) := by
    intro i r hr
    unfold createFunctionTriggers
    simp only [Option.getD_some]
    rw [if_neg hts, hparse, hr]
  have hattB2 : createFunctionTriggers fn nsT (some ts) (seqB 2) =
      ([Act.batchCreateTriggerReq fn ts], Except.ok (some v)) := by
    unfold createFunctionTriggers
    simp only [Option.getD_some]
    rw [if_neg hts, hparse, hB2]
  have hattU : ∀ i g2 v2 s2, seqUA i = Except.error (es i) →
      updateFunctionCode pU nsU packResU (seqUA i) g2 v2 s2 fuelU =
        ([Act.updateCodeReq (buildUpdateCodeParams pU.func nsU (pU.base64Code.getD "")
            (resolveInstallDependency pU.func) pU.codeSecret)],
         some (Except.error { code := (es i).code
                              message := "[" ++ pU.func.name ++ "] 函数代码更新失败： " ++ (es i).message
                              requestId := none })) := by
    intro i g2 v2 s2 hri
    unfold updateFunctionCode
    rw [hvalidU]
    dsimp only
    unfold resolvePackage
    rw [if_pos hbU]
    unfold updateFunctionCodeTry
    rw [hri]
    dsimp only
    rfl
  have hattUB : ∀ i r g2 v2 s2, seqUB i = Except.error r →
      updateFunctionCode pU nsU packResU (seqUB i) g2 v2 s2 fuelU =
        ([Act.updateCodeReq (buildUpdateCodeParams pU.func nsU (pU.base64Code.getD "")
            (resolveInstallDependency pU.func) pU.codeSecret)],
         some (Except.error { code := r.code
                              message := "[" ++ pU.func.name ++ "] 函数代码更新失败： " ++ r.message
                              requestId := none })) := by
    intro i r g2 v2 s2 hri
    unfold updateFunctionCode
    rw [hvalidU]
    dsimp only
    unfold resolvePackage
    rw [if_pos hbU]
    unfold updateFunctionCodeTry
    rw [hri]
    dsimp only
    rfl
  have hattUB2 : ∀ g2 v2 s2, updateFunctionCode pU nsU packResU (seqUB 2) g2 v2 s2 fuelU =
      ([Act.updateCodeReq (buildUpdateCodeParams pU.func nsU (pU.base64Code.getD "")
          (resolveInstallDependency pU.func) pU.codeSecret)],
       some (Except.ok v)) := by
    intro g2 v2 s2
    unfold updateFunctionCode
    rw [hvalidU]
    dsimp only
    unfold resolvePackage
    rw [if_pos hbU]
    unfold updateFunctionCodeTry
    rw [hUB2]
    dsimp only
    rw [if_neg (fun hc => hwaitU hc.2)]
    rfl
  refine ⟨?_, ?_, ?_, ?_, ?_⟩
  · unfold retryCreateTrigger
    show retryCreateTriggerGo fn nsT (some ts) seqA 0 (Nat.succ (Nat.succ (Nat.succ 0))) = _
    simp only [retryCreateTriggerGo]
    simp [hattE]
  · unfold retryCreateTrigger
    show retryCreateTriggerGo fn nsT (some ts) seqB 0 (Nat.succ (Nat.succ (Nat.succ 0))) = _
    simp only [retryCreateTriggerGo]
    simp [hattB 0 (es 0) hB0, hattB 1 (es 1) hB1, hattB2]
  · unfold retryUpdateFunctionCode
    show retryUpdateFunctionCodeGo pU nsU packResU seqUA fuelU gU vU sU 0
      (Nat.succ (Nat.succ (Nat.succ 0))) = _
    simp only [retryUpdateFunctionCodeGo]
    simp [fun i g2 v2 s2 => hattU i g2 v2 s2 (hUA i), countGetF, isGetFunctionReq]
  · unfold retryUpdateFunctionCode
    show retryUpdateFunctionCodeGo pU nsU packResU seqUB fuelU gU vU sU 0
      (Nat.succ (Nat.succ (Nat.succ 0))) = _
    simp only [retryUpdateFunctionCodeGo]
    simp [fun g2 v2 s2 => hattUB 0 (es 0) g2 v2 s2 hUB0,
      fun g2 v2 s2 => hattUB 1 (es 1) g2 v2 s2 hUB1, hattUB2, countGetF, isGetFunctionReq]
  · exact countCreate_createFunction pC nsC packResC createResC trigSeqC configResC updSeqC
      gC vC sC fuelC

/-- Trigger list used by the C2 witness run. -/
def retryDemoTrig : List ICloudFunctionTrigger := [{ name := "t", type := "timer", config := "c" }]

/-- Error returned by every failing attempt in the C2 witness run. -/
def retryDemoErr : CBError := { message := "boom" }

/-- Outcome stream that fails every attempt. -/
def retryDemoSeqA : Nat → Except CBError String := fun _ => Except.error retryDemoErr

/-- Outcome stream that fails the first two attempts and succeeds on the
third. -/
def retryDemoSeqB : Nat → Except CBError String :=
  fun i => if i < 2 then Except.error retryDemoErr else Except.ok "ok2"

/-- Function spec of the code-update retry in the C2 witness run. -/
def retryDemoUFunc : ICloudFunction := { name := "u", runtime := some "Php7" }

/-- Update parameter of the code-update retry in the C2 witness run. -/
def retryDemoUParam : IUpdateFunctionCodeParam := { func := retryDemoUFunc, base64Code := some "B" }

/-- Claim C2 (witness): the retry-policy theorem applied to concrete runs. -/
theorem retry_policy_bounded_backoff_witness :
    retryCreateTrigger "f" "n" (some retryDemoTrig) retryDemoSeqA 0 =
      ([Act.batchCreateTriggerReq "f" retryDemoTrig, Act.sleep 500,
        Act.batchCreateTriggerReq "f" retryDemoTrig, Act.sleep 500,
        Act.batchCreateTriggerReq "f" retryDemoTrig, Act.sleep 500,
        Act.batchCreateTriggerReq "f" retryDemoTrig], Except.error retryDemoErr)
    ∧ retryCreateTrigger "f" "n" (some retryDemoTrig) retryDemoSeqB 0 =
      ([Act.batchCreateTriggerReq "f" retryDemoTrig, Act.sleep 500,
        Act.batchCreateTriggerReq "f" retryDemoTrig, Act.sleep 500,
        Act.batchCreateTriggerReq "f" retryDemoTrig], Except.ok (some "ok2"))
    ∧ retryUpdateFunctionCode retryDemoUParam "n" (fun _ => none) retryDemoSeqA
        (fun _ => Except.ok { Status := "A" }) (fun _ => Except.ok []) (fun _ => Except.ok []) 1 0 =
      ([Act.updateCodeReq (buildUpdateCodeParams retryDemoUParam.func "n"
          (retryDemoUParam.base64Code.getD "") (resolveInstallDependency retryDemoUParam.func)
          retryDemoUParam.codeSecret), Act.sleep 500,
        Act.updateCodeReq (buildUpdateCodeParams retryDemoUParam.func "n"
          (retryDemoUParam.base64Code.getD "") (resolveInstallDependency retryDemoUParam.func)
          retryDemoUParam.codeSecret), Act.sleep 500,
        Act.updateCodeReq (buildUpdateCodeParams retryDemoUParam.func "n"
          (retryDemoUParam.base64Code.getD "") (resolveInstallDependency retryDemoUParam.func)
          retryDemoUParam.codeSecret), Act.sleep 500,
        Act.updateCodeReq (buildUpdateCodeParams retryDemoUParam.func "n"
          (retryDemoUParam.base64Code.getD "") (resolveInstallDependency retryDemoUParam.func)
          retryDemoUParam.codeSecret)],
       some (Except.error { code := retryDemoErr.code
                            message := "[" ++ retryDemoUParam.func.name ++ "] 函数代码更新失败： " ++
                              retryDemoErr.message
                            requestId := none }))
    ∧ retryUpdateFunctionCode retryDemoUParam "n" (fun _ => none) retryDemoSeqB
        (fun _ => Except.ok { Status := "A" }) (fun _ => Except.ok []) (fun _ => Except.ok []) 1 0 =
      ([Act.updateCodeReq (buildUpdateCodeParams retryDemoUParam.func "n"
          (retryDemoUParam.base64Code.getD "") (resolveInstallDependency retryDemoUParam.func)
          retryDemoUParam.codeSecret), Act.sleep 500,
        Act.updateCodeReq (buildUpdateCodeParams retryDemoUParam.func "n"
          (retryDemoUParam.base64Code.getD "") (resolveInstallDependency retryDemoUParam.func)
          retryDemoUParam.codeSecret), Act.sleep 500,
        Act.updateCodeReq (buildUpdateCodeParams retryDemoUParam.func "n"
          (retryDemoUParam.base64Code.getD "") (resolveInstallDependency retryDemoUParam.func)
          retryDemoUParam.codeSecret)],
       some (Except.ok "ok2"))
    ∧ ((createFunction { func := { name := "c" } } "n" (fun _ => none) (Except.ok "r")
        (fun _ => Except.ok "t") (Except.ok "cfg") (fun _ => Except.ok "u")
        (fun _ => Except.ok { Status := "A" }) (fun _ => Except.ok []) (fun _ => Except.ok [])
        1).1).countP isCreateReq ≤ 1 :=
  retry_policy_bounded_backoff "f" "n" retryDemoTrig retryDemoSeqA retryDemoSeqB
    (fun _ => retryDemoErr) "ok2" retryDemoUParam "n" (fun _ => none) retryDemoSeqA retryDemoSeqB
    (fun _ => Except.ok { Status := "A" }) (fun _ => Except.ok []) (fun _ => Except.ok []) 1
    { func := { name := "c" } } "n" (fun _ => none) (Except.ok "r") (fun _ => Except.ok "t")
    (Except.ok "cfg") (fun _ => Except.ok "u") (fun _ => Except.ok { Status := "A" })
    (fun _ => Except.ok []) (fun _ => Except.ok []) 1
    (by decide) (by decide) (fun _ => rfl) rfl rfl rfl rfl rfl (by decide)
    (fun _ => rfl) rfl rfl rfl

/-- Function spec used by the C3 runs. -/
def conflictDemoFunc : ICloudFunction := { name := "g", runtime := some "Nodejs8.9" }

/-- Create parameter used by the C3 runs: `force` unset, artifact supplied. -/
def conflictDemoParam : ICreateFunctionParam :=
  { func := conflictDemoFunc, force := false, base64Code := some "B" }

/-- ResourceConflict error with an empty platform message. -/
def conflictDemoErrEmpty : CBError :=
  { code := some "ResourceInUse.FunctionName", message := "", requestId := some "rid" }

/-- ResourceConflict error with a nonempty platform message. -/
def conflictDemoErrMsg : CBError :=
  { code := some "ResourceInUse.FunctionName", message := "already exists",
    requestId := some "rid" }

/-- Claim C3 (counterexample): a ResourceConflict whose platform message is
empty is rethrown unchanged with `force=false` - the guard
`e.message && !force` is false for an empty message, so the thrown error is
the original one, not a deployment failure annotated with the function
name (the annotated form would differ). -/
theorem createFunction_conflict_noforce_unannotated_counterexample :
    (createFunction conflictDemoParam "ns" (fun _ => none) (Except.error conflictDemoErrEmpty)
      (fun _ => Except.ok "t") (Except.ok "c") (fun _ => Except.ok "u")
      (fun _ => Except.ok { Status := "Active" }) (fun _ => Except.ok [])
      (fun _ => Except.ok []) 1).2 = some (Except.error conflictDemoErrEmpty)
    ∧ conflictDemoErrEmpty ≠ annotateDeployError "g" conflictDemoErrEmpty := by
  refine ⟨by decide, by decide⟩

/-- Claim C3 (amended): on a ResourceConflict with `force=false`,
`createFunction` issues no trigger-create, config-update or code-update
request - its trace is the lone `CreateFunction` request - and throws: the
deployment failure annotated with the function name when the platform
message is nonempty, otherwise the original error unchanged; in both cases
the platform error code and request id are preserved. -/
theorem createFunction_conflict_noforce_fatal_no_updates
    (p : ICreateFunctionParam) (ns : String)
    (packRes : List String → Option String) (e : CBError)
    (trigSeq : Nat → Except CBError String)
    (configRes : Except CBError String)
    (updSeq : Nat → Except CBError String)
    (getSeq : Nat → Except CBError GetFunctionResp)
    (vpcsSeq : Nat → Except CBError (List VpcRec))
    (subnetsSeq : Nat → Except CBError (List SubnetRec))
    (fuel : Nat)
    (hvalid : validCreateParams p.func p.codeSecret = none)
    (hforce : p.force = false)
    (hb : optStrTruthy p.base64Code = true)
    (hcode : e.code = some "ResourceInUse.FunctionName") :
    createFunction p ns packRes (Except.error e) trigSeq configRes updSeq getSeq vpcsSeq
        subnetsSeq fuel =
      ([Act.createFunctionReq (buildCreateFunctionParams p.func ns (p.base64Code.getD "")
          (resolveInstallDependency p.func) p.codeSecret)],
       some (Except.error (if e.message = "" then e else annotateDeployError p.func.name e)))
    ∧ (annotateDeployError p.func.name e).code = e.code
    ∧ (annotateDeployError p.func.name e).requestId = e.requestId := by
  refine ⟨?_, rfl, rfl⟩
  unfold createFunction
  rw [hvalid]
  dsimp only
  unfold resolvePackage
  rw [if_pos hb]
  unfold createFunctionTry
  dsimp only [countBatchReq, countGetF, List.countP, List.countP.go, isBatchReq,
    isGetFunctionReq]
  unfold createFunctionCatch
  rw [hcode, hforce]
  simp only [Bool.false_eq_true, and_false, if_false, ne_eq, and_true, eq_self_iff_true,
    if_true]
  by_cases hm : e.message = ""
  · rw [if_neg (by simp [hm]), if_pos hm]
    rfl
  · rw [if_pos (by simp [hm]), if_neg hm]
    rfl

/-- Claim C3 (amended, witness): the theorem applied to a concrete run with
a nonempty platform message. -/
theorem createFunction_conflict_noforce_fatal_no_updates_witness :
    createFunction { func := conflictDemoFunc, force := false, base64Code := some "B" } "ns"
      (fun _ => none) (Except.error conflictDemoErrMsg)
      (fun _ => Except.ok "t") (Except.ok "c") (fun _ => Except.ok "u")
      (fun _ => Except.ok { Status := "Active" }) (fun _ => Except.ok [])
      (fun _ => Except.ok []) 1 =
      ([Act.createFunctionReq (buildCreateFunctionParams conflictDemoFunc "ns" "B"
          (resolveInstallDependency conflictDemoFunc) none)],
       some (Except.error (if conflictDemoErrMsg.message = "" then conflictDemoErrMsg
        else annotateDeployError "g" conflictDemoErrMsg)))
    ∧ (annotateDeployError "g" conflictDemoErrMsg).code = conflictDemoErrMsg.code
    ∧ (annotateDeployError "g" conflictDemoErrMsg).requestId = conflictDemoErrMsg.requestId :=
  createFunction_conflict_noforce_fatal_no_updates conflictDemoParam "ns" (fun _ => none)
    conflictDemoErrMsg (fun _ => Except.ok "t") (Except.ok "c") (fun _ => Except.ok "u")
    (fun _ => Except.ok { Status := "Active" }) (fun _ => Except.ok []) (fun _ => Except.ok []) 1
    rfl rfl rfl rfl

/-- Claim C4: the Await-Active wait polls `getFunctionDetail` at a fixed
1000ms interval and continues exactly while the status is CREATING or
UPDATING: any other status ends the wait with a successful (non-error)
outcome after that check, a transient status appends one check-and-sleep
and continues with the unbounded tail, and for the status sequence
CREATING, CREATING, ACTIVE the loop performs exactly 3 status checks.
The status constants are spec-modelled (src/constant.ts is not among the
provided sources). -/
theorem waitFunctionActive_polls_while_transient
    (fn ns : String)
    (getSeq : Nat → Except CBError GetFunctionResp)
    (vpcsSeq : Nat → Except CBError (List VpcRec))
    (subnetsSeq : Nat → Except CBError (List SubnetRec))
    (fuel i : Nat) (resp : GetFunctionResp)
    (hok : getSeq i = Except.ok resp) (hnovpc : resp.VpcConfig = none) :
    (resp.Status ≠ SCF_STATUS_CREATING → resp.Status ≠ SCF_STATUS_UPDATING →
      waitFunctionActive fn ns getSeq vpcsSeq subnetsSeq (fuel + 1) i =
        ([Act.getFunctionReq fn, Act.sleep 1000], some (Except.ok ())))
    ∧ ((resp.Status = SCF_STATUS_CREATING ∨ resp.Status = SCF_STATUS_UPDATING) →
      waitFunctionActive fn ns getSeq vpcsSeq subnetsSeq (fuel + 1) i =
        ([Act.getFunctionReq fn, Act.sleep 1000] ++
            (waitFunctionActive fn ns getSeq vpcsSeq subnetsSeq fuel (i + 1)).1,
         (waitFunctionActive fn ns getSeq vpcsSeq subnetsSeq fuel (i + 1)).2))
    ∧ (∀ g2 : Nat → Except CBError GetFunctionResp,
        g2 0 = Except.ok { Status := SCF_STATUS_CREATING } →
        g2 1 = Except.ok { Status := SCF_STATUS_CREATING } →
        g2 2 = Except.ok { Status := "ACTIVE" } →
        waitFunctionActive fn ns g2 vpcsSeq subnetsSeq (fuel + 3) 0 =
          ([Act.getFunctionReq fn, Act.sleep 1000, Act.getFunctionReq fn, Act.sleep 1000,
            Act.getFunctionReq fn, Act.sleep 1000], some (Except.ok ()))) := by
  have hd : getFunctionDetail fn ns (getSeq i) (vpcsSeq i) (subnetsSeq i) =
      ([Act.getFunctionReq fn],
       Except.ok { Status := resp.Status, VpcConfig := VpcConfigField.raw none, VPC := none }) := by
    rw [hok]
    unfold getFunctionDetail
    dsimp only
    rw [hnovpc]
    rw [if_neg (by simp)]
  refine ⟨?_, ?_, ?_⟩
  · intro h1 h2
    show waitFunctionActive fn ns getSeq vpcsSeq subnetsSeq (Nat.succ fuel) i = _
    conv_lhs => unfold waitFunctionActive
    rw [hd]
    dsimp only
    rw [if_neg (by simp [h1, h2])]
    rfl
  · intro h
    show waitFunctionActive fn ns getSeq vpcsSeq subnetsSeq (Nat.succ fuel) i = _
    conv_lhs => unfold waitFunctionActive
    rw [hd]
    dsimp only
    rw [if_pos h]
    rfl
  · intro g2 h0 h1 h2
    show waitFunctionActive fn ns g2 vpcsSeq subnetsSeq
      (Nat.succ (Nat.succ (Nat.succ fuel))) 0 = _
    simp only [waitFunctionActive]
    simp [getFunctionDetail, h0, h1, h2, SCF_STATUS_CREATING, SCF_STATUS_UPDATING]

/-- Status stream used by the C4 witness run: CREATING, CREATING, ACTIVE. -/
def waitDemoSeq : Nat → Except CBError GetFunctionResp :=
  fun i => if i < 2 then Except.ok { Status := SCF_STATUS_CREATING }
    else Except.ok { Status := "ACTIVE" }

/-- Claim C4 (witness): the polling theorem applied to concrete runs. -/
theorem waitFunctionActive_polls_while_transient_witness :
    (("ACTIVE" : String) ≠ SCF_STATUS_CREATING → ("ACTIVE" : String) ≠ SCF_STATUS_UPDATING →
      waitFunctionActive "f" "n" (fun _ => Except.ok { Status := "ACTIVE" })
          (fun _ => Except.ok []) (fun _ => Except.ok []) (0 + 1) 0 =
        ([Act.getFunctionReq "f", Act.sleep 1000], some (Except.ok ())))
    ∧ ((("ACTIVE" : String) = SCF_STATUS_CREATING ∨ ("ACTIVE" : String) = SCF_STATUS_UPDATING) →
      waitFunctionActive "f" "n" (fun _ => Except.ok { Status := "ACTIVE" })
          (fun _ => Except.ok []) (fun _ => Except.ok []) (0 + 1) 0 =
        ([Act.getFunctionReq "f", Act.sleep 1000] ++
            (waitFunctionActive "f" "n" (fun _ => Except.ok { Status := "ACTIVE" })
              (fun _ => Except.ok []) (fun _ => Except.ok []) 0 (0 + 1)).1,
         (waitFunctionActive "f" "n" (fun _ => Except.ok { Status := "ACTIVE" })
            (fun _ => Except.ok []) (fun _ => Except.ok []) 0 (0 + 1)).2))
    ∧ (∀ g2 : Nat → Except CBError GetFunctionResp,
        g2 0 = Except.ok { Status := SCF_STATUS_CREATING } →
        g2 1 = Except.ok { Status := SCF_STATUS_CREATING } →
        g2 2 = Except.ok { Status := "ACTIVE" } →
        waitFunctionActive "f" "n" g2 (fun _ => Except.ok []) (fun _ => Except.ok [])
            (0 + 3) 0 =
          ([Act.getFunctionReq "f", Act.sleep 1000, Act.getFunctionReq "f", Act.sleep 1000,
            Act.getFunctionReq "f", Act.sleep 1000], some (Except.ok ()))) :=
  waitFunctionActive_polls_while_transient "f" "n" (fun _ => Except.ok { Status := "ACTIVE" })
    (fun _ => Except.ok []) (fun _ => Except.ok []) 0 0 { Status := "ACTIVE" } rfl rfl

/-- Function spec of the C5 run: dependency installation explicitly off,
readiness wait requested. -/
def waitBugFunc : ICloudFunction :=
  { name := "f", runtime := some "Php7", installDependency := some false,
    isWaitInstall := some true }

/-- Create parameter of the C5 run: a pre-built artifact, so no packaging. -/
def waitBugParam : ICreateFunctionParam := { func := waitBugFunc, base64Code := some "B64" }

/-- Claim C5 (code bug): although dependency installation resolves to
`'FALSE'`, the run still polls `getFunctionDetail` (one `GetFunction`
request and the 1000ms sleep appear in the trace) because the source tests
the string `params.InstallDependency` for truthiness and the nonempty
string `'FALSE'` is truthy; the claim and the source comment
(`如果选择自动安装依赖，且等待依赖安装`) describe the intended behavior -
no readiness polling without installation - which the code contradicts. -/
theorem createFunction_waits_despite_install_false :
    createFunction waitBugParam "ns" (fun _ => none) (Except.ok "r")
      (fun _ => Except.error { message := "unused" }) (Except.ok "c") (fun _ => Except.ok "u")
      (fun _ => Except.ok { Status := "Active" }) (fun _ => Except.ok [])
      (fun _ => Except.ok []) 10 =
      ([Act.createFunctionReq (buildCreateFunctionParams waitBugFunc "ns" "B64" "FALSE" none),
        Act.getFunctionReq "f", Act.sleep 1000],
       some (Except.ok (CreateFunctionResult.createRes "r")))
    ∧ resolveInstallDependency waitBugFunc = "FALSE"
    ∧ (buildCreateFunctionParams waitBugFunc "ns" "B64" "FALSE" none).InstallDependency =
      "FALSE" := by
  refine ⟨by decide, rfl, rfl⟩

/-- Function spec of the C6 counterexample run: valid runtime. -/
def secretBypassFunc : ICloudFunction := { name := "f", runtime := some "Nodejs8.9" }

/-- Update parameter of the C6 counterexample run: malformed code secret
and a pre-built artifact. -/
def secretBypassParam : IUpdateFunctionCodeParam :=
  { func := secretBypassFunc, base64Code := some "B", codeSecret := some "!!!" }

/-- Claim C6 (counterexample): `updateFunctionCode` calls
`validCreateParams(func)` without the code secret, so a malformed
`codeSecret` (here `"!!!"`, outside `[A-Za-z0-9+=/]`) is not rejected: the
run issues the `UpdateFunctionCode` network request carrying the malformed
secret and succeeds, contradicting fail-before-any-network-request. -/
theorem updateFunctionCode_accepts_malformed_codeSecret :
    updateFunctionCode secretBypassParam "ns" (fun _ => none) (Except.ok "r")
      (fun _ => Except.ok { Status := "Active" }) (fun _ => Except.ok [])
      (fun _ => Except.ok []) 1 =
      ([Act.updateCodeReq (buildUpdateCodeParams secretBypassFunc "ns" "B" "TRUE"
          (some "!!!"))], some (Except.ok "r"))
    ∧ validCodeSecret "!!!" = false
    ∧ (buildUpdateCodeParams secretBypassFunc "ns" "B" "TRUE" (some "!!!")).CodeSecret =
      some "!!!" := by
  refine ⟨by decide, by decide, rfl⟩

/-- Claim C6 (amended): `createFunction` fails fast with zero side effects
(an empty trace) when the spec carries a truthy runtime outside the closed
set or a truthy malformed code secret; `updateFunctionCode` and
`updateFunctionIncrementalCode` validate only the runtime (they call the
validator without the code secret); a truthy non-listed runtime always
makes the validator fail, and a truthy malformed code secret is rejected by
`createFunction` with the format error. -/
theorem validation_fail_fast_scope :
    (∀ (p : ICreateFunctionParam) (ns : String) (packRes : List String → Option String)
      (createRes : Except CBError String) (trigSeq : Nat → Except CBError String)
      (configRes : Except CBError String) (updSeq : Nat → Except CBError String)
      (getSeq : Nat → Except CBError GetFunctionResp)
      (vpcsSeq : Nat → Except CBError (List VpcRec))
      (subnetsSeq : Nat → Except CBError (List SubnetRec)) (fuel : Nat) (e : CBError),
      validCreateParams p.func p.codeSecret = some e →
      createFunction p ns packRes createRes trigSeq configRes updSeq getSeq vpcsSeq
        subnetsSeq fuel = ([], some (Except.error e)))
    ∧ (∀ (p : IUpdateFunctionCodeParam) (ns : String) (packRes : List String → Option String)
      (reqRes : Except CBError String) (getSeq : Nat → Except CBError GetFunctionResp)
      (vpcsSeq : Nat → Except CBError (List VpcRec))
      (subnetsSeq : Nat → Except CBError (List SubnetRec)) (fuel : Nat) (e : CBError),
      validCreateParams p.func none = some e →
      updateFunctionCode p ns packRes reqRes getSeq vpcsSeq subnetsSeq fuel =
        ([], some (Except.error e)))
    ∧ (∀ (p : IUpdateFunctionIncrementalCodeParam) (ns : String)
      (packIncRes : String → Option String) (reqRes : Except CBError String) (e : CBError),
      validCreateParams p.func none = some e →
      updateFunctionIncrementalCode p ns packIncRes reqRes = ([], Except.error e))
    ∧ (∀ (func : ICloudFunction) (cs : Option String) (r : String),
      func.runtime = some r → r ≠ "" → validRuntimes.contains r = false →
      (validCreateParams func cs).isSome = true)
    ∧ (∀ (func : ICloudFunction) (cs : String), cs ≠ "" → validCodeSecret cs = false →
      validCreateParams func (some cs) = some codeSecretFormatError) := by
  refine ⟨?_, ?_, ?_, ?_, ?_⟩
  · intro p ns packRes createRes trigSeq configRes updSeq getSeq vpcsSeq subnetsSeq fuel e hv
    unfold createFunction
    rw [hv]
  · intro p ns packRes reqRes getSeq vpcsSeq subnetsSeq fuel e hv
    unfold updateFunctionCode
    rw [hv]
  · intro p ns packIncRes reqRes e hv
    unfold updateFunctionIncrementalCode
    rw [hv]
  · intro func cs r hr hne hout
    unfold validCreateParams
    by_cases hbc : badCodeSecret cs
    · simp [hbc]
    · have hbr : badRuntime func = true := by
        unfold badRuntime
        rw [hr]
        dsimp only
        rw [hout]
        simp [jsTruthyStr, hne]
      simp [hbc, hbr]
  · intro func cs hne hbad
    unfold validCreateParams
    rw [if_pos (by simp [badCodeSecret, jsTruthyStr, hne, hbad])]

/-- Claim C6 (amended, witness): the fail-fast theorem applied to concrete
runs with the unsupported runtime `Go` and the malformed secret `!!!`. -/
theorem validation_fail_fast_scope_witness :
    createFunction { func := { name := "w", runtime := some "Go" } } "ns" (fun _ => none)
      (Except.ok "r") (fun _ => Except.ok "t") (Except.ok "c") (fun _ => Except.ok "u")
      (fun _ => Except.ok { Status := "A" }) (fun _ => Except.ok []) (fun _ => Except.ok []) 1 =
      ([], some (Except.error (invalidRuntimeError { name := "w", runtime := some "Go" })))
    ∧ updateFunctionCode { func := { name := "w", runtime := some "Go" } } "ns" (fun _ => none)
      (Except.ok "r") (fun _ => Except.ok { Status := "A" }) (fun _ => Except.ok [])
      (fun _ => Except.ok []) 1 =
      ([], some (Except.error (invalidRuntimeError { name := "w", runtime := some "Go" })))
    ∧ updateFunctionIncrementalCode { func := { name := "w", runtime := some "Go" }, functionRootPath := "root" } "ns" (fun _ => none) (Except.ok "r") =
      ([], Except.error (invalidRuntimeError { name := "w", runtime := some "Go" }))
    ∧ (validCreateParams { name := "w", runtime := some "Go" } none).isSome = true
    ∧ validCreateParams { name := "w" } (some "!!!") = some codeSecretFormatError :=
  ⟨validation_fail_fast_scope.1 { func := { name := "w", runtime := some "Go" } } "ns"
      (fun _ => none) (Except.ok "r") (fun _ => Except.ok "t") (Except.ok "c")
      (fun _ => Except.ok "u") (fun _ => Except.ok { Status := "A" }) (fun _ => Except.ok [])
      (fun _ => Except.ok []) 1 (invalidRuntimeError { name := "w", runtime := some "Go" })
      (by decide),
   validation_fail_fast_scope.2.1 { func := { name := "w", runtime := some "Go" } } "ns"
      (fun _ => none) (Except.ok "r") (fun _ => Except.ok { Status := "A" })
      (fun _ => Except.ok []) (fun _ => Except.ok []) 1
      (invalidRuntimeError { name := "w", runtime := some "Go" }) (by decide),
   validation_fail_fast_scope.2.2.1 { func := { name := "w", runtime := some "Go" }, functionRootPath := "root" } "ns"
      (fun _ => none) (Except.ok "r") (invalidRuntimeError { name := "w", runtime := some "Go" })
      (by decide),
   validation_fail_fast_scope.2.2.2.1 { name := "w", runtime := some "Go" } none "Go" rfl
      (by decide) (by decide),
   validation_fail_fast_scope.2.2.2.2 { name := "w" } "!!!" (by decide) (by decide)⟩

/-- Claim C7 (counterexample): with an empty desired environment-variable
set, neither the config-update parameters nor the creation parameters
carry an `Environment` field at all (the guard `envVariables.length &&`
skips the assignment), so the request does not send the complete - empty -
desired set; the claim fails in the empty case. -/
theorem updateConfig_omits_empty_environment :
    (updateFunctionConfigParams { name := "f" } "ns").Environment = none
    ∧ (buildCreateFunctionParams { name := "f" } "ns" "B" "FALSE" none).Environment = none
    ∧ (some ([] : List (String × String))) ≠ (none : Option (List (String × String))) := by
  refine ⟨rfl, rfl, by decide⟩

/-- Claim C7 (amended): environment-variable updates are full-replace for a
nonempty desired set: both the config-update and the creation parameters
carry exactly the complete entry list derived from the spec (which is the
entry list itself - the derivation has no remote-state input, so it can
never be a diff); when the desired set is empty the `Environment` field is
omitted from the request instead. -/
theorem environment_full_replace_semantics (func : ICloudFunction) (ns b64 inst : String)
    (cs : Option String) :
    (func.envVariables ≠ [] →
      (updateFunctionConfigParams func ns).Environment = some (envVariablesOf func)
      ∧ (buildCreateFunctionParams func ns b64 inst cs).Environment = some (envVariablesOf func))
    ∧ (func.envVariables = [] →
      (updateFunctionConfigParams func ns).Environment = none
      ∧ (buildCreateFunctionParams func ns b64 inst cs).Environment = none)
    ∧ envVariablesOf func = func.envVariables := by
  have hev : envVariablesOf func = func.envVariables := by
    unfold envVariablesOf
    simp
  refine ⟨?_, ?_, hev⟩
  · intro hne
    have hne2 : envVariablesOf func ≠ [] := by rw [hev]; exact hne
    constructor
    · unfold updateFunctionConfigParams
      simp only [if_neg hne2]
    · unfold buildCreateFunctionParams
      simp only [if_neg hne2]
  · intro he
    have he2 : envVariablesOf func = [] := by rw [hev]; exact he
    constructor
    · unfold updateFunctionConfigParams
      simp only [if_pos he2]
    · unfold buildCreateFunctionParams
      simp only [if_pos he2]

/-- Function spec of the C7 witness run: two environment variables. -/
def envDemoFunc : ICloudFunction :=
  { name := "f", envVariables := [("A", "1"), ("B", "2")] }

/-- Claim C7 (amended, witness): the full-replace theorem applied to a
concrete nonempty and a concrete empty environment set. -/
theorem environment_full_replace_semantics_witness :
    ((envDemoFunc.envVariables ≠ [] →
      (updateFunctionConfigParams envDemoFunc "ns").Environment = some (envVariablesOf envDemoFunc)
      ∧ (buildCreateFunctionParams envDemoFunc "ns" "B" "FALSE" none).Environment =
        some (envVariablesOf envDemoFunc))
    ∧ (envDemoFunc.envVariables = [] →
      (updateFunctionConfigParams envDemoFunc "ns").Environment = none
      ∧ (buildCreateFunctionParams envDemoFunc "ns" "B" "FALSE" none).Environment = none)
    ∧ envVariablesOf envDemoFunc = envDemoFunc.envVariables)
    ∧ (updateFunctionConfigParams envDemoFunc "ns").Environment =
      some [("A", "1"), ("B", "2")] :=
  ⟨environment_full_replace_semantics envDemoFunc "ns" "B" "FALSE" none,
   ((environment_full_replace_semantics envDemoFunc "ns" "B" "FALSE" none).1
      (by decide)).1.trans (by decide)⟩

/-- Claim C8: when the VPC-info lookup inside `getFunctionDetail` fails
(either the `DescribeVpcs` call or the `DescribeSubnets` call), the failure
is never surfaced: the call still returns a detail record carrying the
copied status and the raw `VpcConfig`, with the `VPC` key downgraded to the
empty `{vpc: '', subnet: ''}` record in place of resolved data. -/
theorem getFunctionDetail_vpc_failure_degraded
    (fn ns : String) (resp : GetFunctionResp) (vid sid : String)
    (vpcsRes : Except CBError (List VpcRec)) (subnetsRes : Except CBError (List SubnetRec))
    (hvpc : resp.VpcConfig = some (vid, sid)) (hv : vid ≠ "") (hs : sid ≠ "")
    (hfail : (∃ e1, vpcsRes = Except.error e1) ∨
      (∃ vs e2, vpcsRes = Except.ok vs ∧ subnetsRes = Except.error e2)) :
    (getFunctionDetail fn ns (Except.ok resp) vpcsRes subnetsRes).2 =
      Except.ok { Status := resp.Status, VpcConfig := VpcConfigField.raw (some (vid, sid)),
                  VPC := some ("", "") } := by
  unfold getFunctionDetail
  dsimp only
  rw [hvpc]
  rw [if_pos ⟨by simp [hv], by simp [hs]⟩]
  rcases hfail with ⟨e1, he⟩ | ⟨vs, e2, hv2, hs2⟩
  · rw [he]
  · rw [hv2, hs2]

/-- Claim C8 (witness): the degrade theorem applied to a concrete run whose
`DescribeVpcs` call fails. -/
theorem getFunctionDetail_vpc_failure_degraded_witness :
    (getFunctionDetail "f" "ns" (Except.ok { Status := "Active", VpcConfig := some ("v1", "s1") })
      (Except.error { message := "network down" }) (Except.ok [])).2 =
      Except.ok { Status := "Active", VpcConfig := VpcConfigField.raw (some ("v1", "s1")),
                  VPC := some ("", "") } :=
  getFunctionDetail_vpc_failure_degraded "f" "ns"
    { Status := "Active", VpcConfig := some ("v1", "s1") } "v1" "s1"
    (Except.error { message := "network down" }) (Except.ok []) rfl (by decide) (by decide)
    (Or.inl ⟨{ message := "network down" }, rfl⟩)

/-- Claim C9 (counterexample): the empty-trigger no-op is not the only
silently absorbed condition - `getFunctionDetail` also absorbs a failed
VPC lookup: here its `DescribeVpcs` sub-call fails, yet the operation
returns a successful detail record and the failure is swallowed. -/
theorem getFunctionDetail_absorbs_vpc_failure :
    getFunctionDetail "f" "ns" (Except.ok { Status := "Active", VpcConfig := some ("v1", "s1") })
      (Except.error { message := "vpc lookup failed" }) (Except.ok []) =
      ([Act.getFunctionReq "f", Act.describeVpcsReq],
       Except.ok { Status := "Active", VpcConfig := VpcConfigField.raw (some ("v1", "s1")),
                   VPC := some ("", "") }) := by decide

/-- Claim C9 (amended): `createFunctionTriggers` with an absent or empty
trigger list is a no-op returning null - no network request and no error;
this silent absorption is not unique, though: `getFunctionDetail` likewise
silently absorbs a failed VPC lookup, returning a successful detail record
with the degraded empty VPC field. -/
theorem createFunctionTriggers_empty_noop
    (fn ns : String) (reqRes : Except CBError String) :
    createFunctionTriggers fn ns none reqRes = ([], Except.ok none)
    ∧ createFunctionTriggers fn ns (some []) reqRes = ([], Except.ok none)
    ∧ (∀ (resp : GetFunctionResp) (vid sid : String) (e : CBError)
        (subnetsRes : Except CBError (List SubnetRec)),
        resp.VpcConfig = some (vid, sid) → vid ≠ "" → sid ≠ "" →
        (getFunctionDetail fn ns (Except.ok resp) (Except.error e) subnetsRes).2 =
          Except.ok { Status := resp.Status, VpcConfig := VpcConfigField.raw (some (vid, sid)),
                      VPC := some ("", "") }) := by
  refine ⟨rfl, rfl, ?_⟩
  intro resp vid sid e subnetsRes hvpc hv hs
  unfold getFunctionDetail
  dsimp only
  rw [hvpc]
  rw [if_pos ⟨by simp [hv], by simp [hs]⟩]

/-- Claim C9 (amended, witness): the no-op theorem applied to concrete
inputs, with the VPC-absorption conjunct instantiated. -/
theorem createFunctionTriggers_empty_noop_witness :
    createFunctionTriggers "f" "n" none (Except.ok "x") = ([], Except.ok none)
    ∧ createFunctionTriggers "f" "n" (some []) (Except.ok "x") = ([], Except.ok none)
    ∧ (getFunctionDetail "f" "n" (Except.ok { Status := "Active", VpcConfig := some ("v", "s") })
        (Except.error { message := "boom" }) (Except.ok [])).2 =
      Except.ok { Status := "Active", VpcConfig := VpcConfigField.raw (some ("v", "s")),
                  VPC := some ("", "") } :=
  ⟨(createFunctionTriggers_empty_noop "f" "n" (Except.ok "x")).1,
   (createFunctionTriggers_empty_noop "f" "n" (Except.ok "x")).2.1,
   (createFunctionTriggers_empty_noop "f" "n" (Except.ok "x")).2.2
     { Status := "Active", VpcConfig := some ("v", "s") } "v" "s" { message := "boom" }
     (Except.ok []) rfl (by decide) (by decide)⟩

theorem resolvePackage_trace_of_no_artifact (b64 : Option String) (inst : String)
    (func : ICloudFunction) (packRes : List String → Option String) (hb : b64 = none) :
    (resolvePackage b64 inst func packRes).1 = [Act.pack (packIgnore inst func)] := by
  rw [hb]
  unfold resolvePackage
  split
  · rename_i hcontra
    simp [optStrTruthy] at hcontra
  · dsimp only
    split
    · split
      · rfl
      · rfl
    · rfl

/-- Claim C10: when the effective install-dependency flag resolves to
`'TRUE'` - requested explicitly or defaulted because the runtime is
Nodejs8.9 - the packer ignore list is the caller list with
`node_modules/**/*` and `node_modules` prepended; when it resolves to
`'FALSE'` the caller list is used unchanged; and whenever code is packaged
from the local root (no `base64Code`), both `createFunction` and
`updateFunctionCode` start their trace with exactly that packaging step. -/
theorem packIgnore_node_modules_policy :
    (∀ func : ICloudFunction,
      (func.installDependency = some true ∨
        (func.installDependency = none ∧ func.runtime = some "Nodejs8.9")) →
      resolveInstallDependency func = "TRUE"
      ∧ packIgnore (resolveInstallDependency func) func =
        "node_modules/**/*" :: "node_modules" :: func.ignore)
    ∧ (∀ func : ICloudFunction,
      (func.installDependency = some false ∨
        (func.installDependency = none ∧ func.runtime ≠ some "Nodejs8.9")) →
      resolveInstallDependency func = "FALSE"
      ∧ packIgnore (resolveInstallDependency func) func = func.ignore)
    ∧ (∀ (p : ICreateFunctionParam) (ns : String) (packRes : List String → Option String)
      (createRes : Except CBError String) (trigSeq : Nat → Except CBError String)
      (configRes : Except CBError String) (updSeq : Nat → Except CBError String)
      (getSeq : Nat → Except CBError GetFunctionResp)
      (vpcsSeq : Nat → Except CBError (List VpcRec))
      (subnetsSeq : Nat → Except CBError (List SubnetRec)) (fuel : Nat),
      validCreateParams p.func p.codeSecret = none → p.base64Code = none →
      ((createFunction p ns packRes createRes trigSeq configRes updSeq getSeq vpcsSeq
        subnetsSeq fuel).1).head? =
        some (Act.pack (packIgnore (resolveInstallDependency p.func) p.func)))
    ∧ (∀ (p : IUpdateFunctionCodeParam) (ns : String) (packRes : List String → Option String)
      (reqRes : Except CBError String) (getSeq : Nat → Except CBError GetFunctionResp)
      (vpcsSeq : Nat → Except CBError (List VpcRec))
      (subnetsSeq : Nat → Except CBError (List SubnetRec)) (fuel : Nat),
      validCreateParams p.func none = none → p.base64Code = none →
      ((updateFunctionCode p ns packRes reqRes getSeq vpcsSeq subnetsSeq fuel).1).head? =
        some (Act.pack (packIgnore (resolveInstallDependency p.func) p.func))) := by
  refine ⟨?_, ?_, ?_, ?_⟩
  · intro func h
    have hres : resolveInstallDependency func = "TRUE" := by
      unfold resolveInstallDependency
      rcases h with hi | ⟨hi, hr⟩
      · rw [hi]
        rfl
      · rw [hi, hr]
        simp
    refine ⟨hres, ?_⟩
    rw [hres]
    rfl
  · intro func h
    have hres : resolveInstallDependency func = "FALSE" := by
      unfold resolveInstallDependency
      rcases h with hi | ⟨hi, hr⟩
      · rw [hi]
        rfl
      · rw [hi]
        dsimp only
        rw [if_neg hr]
    refine ⟨hres, ?_⟩
    rw [hres]
    rfl
  · intro p ns packRes createRes trigSeq configRes updSeq getSeq vpcsSeq subnetsSeq fuel
      hvalid hb64
    have hpk1 := resolvePackage_trace_of_no_artifact p.base64Code
      (resolveInstallDependency p.func) p.func packRes hb64
    unfold createFunction
    rw [hvalid]
    dsimp only
    split
    · rw [hpk1]
      rfl
    · split
      · rw [hpk1]
        rfl
      · rw [hpk1]
        rfl
  · intro p ns packRes reqRes getSeq vpcsSeq subnetsSeq fuel hvalid hb64
    have hpk1 := resolvePackage_trace_of_no_artifact p.base64Code
      (resolveInstallDependency p.func) p.func packRes hb64
    unfold updateFunctionCode
    rw [hvalid]
    dsimp only
    split
    · rw [hpk1]
      rfl
    · split
      · rw [hpk1]
        rfl
      · rw [hpk1]
        rfl

/-- Function spec for the C10 witness: dependency install explicitly on. -/
def nmDemoFuncOn : ICloudFunction :=
  { name := "a", installDependency := some true, ignore := ["x"] }

/-- Function spec for the C10 witness: non-Node runtime, no install option. -/
def nmDemoFuncOff : ICloudFunction := { name := "b", runtime := some "Php7", ignore := ["y"] }

/-- Claim C10 (witness): the ignore-policy theorem applied to concrete
specs and runs. -/
theorem packIgnore_node_modules_policy_witness :
    (resolveInstallDependency nmDemoFuncOn = "TRUE"
      ∧ packIgnore (resolveInstallDependency nmDemoFuncOn) nmDemoFuncOn =
        "node_modules/**/*" :: "node_modules" :: nmDemoFuncOn.ignore)
    ∧ (resolveInstallDependency nmDemoFuncOff = "FALSE"
      ∧ packIgnore (resolveInstallDependency nmDemoFuncOff) nmDemoFuncOff = nmDemoFuncOff.ignore)
    ∧ ((createFunction { func := nmDemoFuncOn } "n" (fun _ => some "P") (Except.ok "r")
        (fun _ => Except.ok "t") (Except.ok "c") (fun _ => Except.ok "u")
        (fun _ => Except.ok { Status := "A" }) (fun _ => Except.ok []) (fun _ => Except.ok [])
        1).1).head? =
      some (Act.pack (packIgnore (resolveInstallDependency nmDemoFuncOn) nmDemoFuncOn))
    ∧ ((updateFunctionCode { func := nmDemoFuncOn } "n" (fun _ => some "P") (Except.ok "r")
        (fun _ => Except.ok { Status := "A" }) (fun _ => Except.ok []) (fun _ => Except.ok [])
        1).1).head? =
      some (Act.pack (packIgnore (resolveInstallDependency nmDemoFuncOn) nmDemoFuncOn)) :=
  ⟨packIgnore_node_modules_policy.1 nmDemoFuncOn (Or.inl rfl),
   packIgnore_node_modules_policy.2.1 nmDemoFuncOff (Or.inr ⟨rfl, by decide⟩),
   packIgnore_node_modules_policy.2.2.1 { func := nmDemoFuncOn } "n" (fun _ => some "P")
     (Except.ok "r") (fun _ => Except.ok "t") (Except.ok "c") (fun _ => Except.ok "u")
     (fun _ => Except.ok { Status := "A" }) (fun _ => Except.ok []) (fun _ => Except.ok []) 1
     rfl rfl,
   packIgnore_node_modules_policy.2.2.2 { func := nmDemoFuncOn } "n" (fun _ => some "P")
     (Except.ok "r") (fun _ => Except.ok { Status := "A" }) (fun _ => Except.ok [])
     (fun _ => Except.ok []) 1 rfl rfl⟩
